import Mathlib

/-!
Verification development for the cardiac ECG simulator
(`src/core/simulator.py`, `src/layers/*.py`, `src/arrhythmias/*.py`,
`src/data/arrhythmia_templates.py`).

The embedding is shallow: numpy float arithmetic is carried out exactly over
`ℚ`; the transcendental functions (`np.exp`, `np.sin`, the constant `np.pi`)
and the value kernel of `scipy.ndimage.zoom` are abstracted into a `NumEnv`
parameter, so every theorem holds for any realisation of them; the
process-wide numpy random generator is an explicit stream of unit draws
threaded by index; Python exceptions (`ZeroDivisionError`, numpy's
`ValueError` on empty arrays, the `ValueError` raised by
`ECGSignal.get_lead`) are modelled as `Option.none`.
-/

namespace ECGSim

/-- An infinite stream of random unit draws: the shallow model of the
process-wide numpy random generator.  `r i` is the i-th variate produced by
the generator; uniform draws consume one entry, `np.random.normal` and
`np.random.randn` consume one entry per sample (the Gaussian transform is
absorbed into the stream). -/
abbrev Rng := ℕ → ℚ

/-- Well-formedness of a draw stream: every unit draw lies in `[0,1)`,
matching the half-open interval of `np.random.uniform`. -/
def unitOk (r : Rng) : Prop := ∀ i, 0 ≤ r i ∧ r i < 1

/-- `np.random.uniform(a, b)` realised from one unit draw `u`. -/
def uniform (a b u : ℚ) : ℚ := a + (b - a) * u

/-- Python `int()` applied to a float: truncation toward zero. -/
def pyInt (q : ℚ) : ℤ := if 0 ≤ q then ⌊q⌋ else ⌈q⌉

/-- Python `round` to the nearest integer.  Ties round half-up here; every
call site reached by the claims applies it to an exact integer, where all
tie conventions agree. -/
def pyRound (q : ℚ) : ℤ := ⌊q + 1/2⌋

/-- `np.clip(x, 0, 1)`. -/
def clip01 (q : ℚ) : ℚ := min 1 (max 0 q)

/-- `np.linspace a b n`. -/
def linspace (a b : ℚ) (n : ℕ) : List ℚ :=
  if n ≤ 1 then List.replicate n a
  else List.ofFn (fun i : Fin n => a + (b - a) * (i : ℚ) / ((n : ℚ) - 1))

/-- `np.roll` by `s` positions (positive shifts to the right). -/
def roll (l : List ℚ) (s : ℤ) : List ℚ :=
  if l.length = 0 then l
  else
    let k := (s % (l.length : ℤ)).toNat
    l.drop (l.length - k) ++ l.take (l.length - k)

/-- `np.max` over a one-dimensional array; numpy raises `ValueError` on an
empty array, modelled as `none`. -/
def npMax : List ℚ → Option ℚ
  | [] => none
  | x :: xs => some (xs.foldl max x)

/-- Python-dict lookup on an association list. -/
def dictGet {α : Type} : List (String × α) → String → Option α
  | [], _ => none
  | (k, v) :: rest, key => if k = key then some v else dictGet rest key

/-- Python `d.get(key, default)`. -/
def dictGetD {α : Type} (d : List (String × α)) (key : String) (dflt : α) : α :=
  (dictGet d key).getD dflt

/-- Python `d[key] = v`: replace the value of an existing key in place,
otherwise append the new entry (insertion order is preserved, as for a
Python dict). -/
def dictSet {α : Type} : List (String × α) → String → α → List (String × α)
  | [], key, v => [(key, v)]
  | (k, w) :: rest, key, v =>
    if k = key then (k, v) :: rest else (k, w) :: dictSet rest key v

/-- Python `str.title()` restricted to its behaviour on the lower-case,
underscore-free words that reach it from `get_arrhythmia_config`:
capitalise each space-separated word. -/
def pyTitle (s : String) : String :=
  String.intercalate " " ((s.splitOn " ").map String.capitalize)

/-- Abstract numeric environment: the transcendental functions (`np.exp`,
`np.sin`), the float constant `np.pi`, and the value kernel of
`scipy.ndimage.zoom`'s cubic-spline interpolation (`zoomVal sig factor i` is
the i-th output sample of `zoom(sig, factor, order=3)`).  The source
evaluates these in IEEE floating point; the embedding keeps them as
parameters, so every theorem below holds for any realisation. -/
structure NumEnv where
  exp : ℚ → ℚ
  sin : ℚ → ℚ
  pi : ℚ
  zoomVal : List ℚ → ℚ → ℕ → ℚ

/-! ## Arrhythmia identifiers

The source's `ArrhythmiaType` enum is modelled by its value strings
(`src/arrhythmias/types.py`). -/

def asystoleKey : String := "ventricular_asystole"

def vfCoarseKey : String := "ventricular_fibrillation_coarse"

def vfFineKey : String := "ventricular_fibrillation_fine"

def torsadesKey : String := "torsades_de_pointes"

def pvcKey : String := "premature_ventricular_contraction"

def normalSinusKey : String := "normal_sinus_rhythm"

/-- The value strings of the 16 `VENT_*` members of `ArrhythmiaType`
(`src/arrhythmias/types.py` lines 67-82); `RealisticLayer._get_stim_amplitude`
tests membership of this family via `'VENT' in template.arrhythmia_type.name`. -/
def ventTypeKeys : List String :=
  [pvcKey, "pvc_bigeminy", "pvc_trigeminy", "pvc_couplet", "pvc_triplet",
   "accelerated_idioventricular_rhythm", "ventricular_escape_rhythm",
   "ventricular_tachycardia_monomorphic", "ventricular_tachycardia_polymorphic",
   "ventricular_tachycardia_sustained", "ventricular_tachycardia_nonsustained",
   torsadesKey, vfCoarseKey, vfFineKey, asystoleKey, "idioventricular_rhythm"]

/-! ## Arrhythmia configuration records (`src/arrhythmias/config.py`) -/

/-- `WaveformParams` (`src/arrhythmias/config.py` lines 12-17). -/
structure WaveformParams where
  amplitude : ℚ
  duration : ℚ
  morphology : String
deriving DecidableEq

/-- `ArrhythmiaConfig` (`src/arrhythmias/config.py` lines 20-57).  The
`conduction_ratio` field is named `conduction` here. -/
structure ArrhythmiaConfig where
  name : String
  arrhythmia_type : String
  category : String
  rate_range : ℚ × ℚ
  rate_regularity : String
  pr_interval : Option (ℚ × ℚ) := none
  qrs_duration : Option (ℚ × ℚ) := some (80, 100)
  qt_interval : Option (ℚ × ℚ) := none
  p_wave : WaveformParams := ⟨0.15, 80, "normal"⟩
  qrs_complex : WaveformParams := ⟨1.0, 80, "normal"⟩
  t_wave : WaveformParams := ⟨0.3, 160, "normal"⟩
  rhythm_pattern : String := "regular"
  conduction : Option String := none
  special_features : List String := []
  mechanism : String := "normal"
  origin : String := "sinus"
  is_life_threatening : Bool := false
  urgency : String := "low"
deriving DecidableEq

/-- `ARRHYTHMIA_CONFIGS` (`src/arrhythmias/config.py` lines 80-344), keyed by
the enum value strings. -/
def ARRHYTHMIA_CONFIGS : List (String × ArrhythmiaConfig) :=
  [(normalSinusKey,
    { name := "Normal Sinus Rhythm", arrhythmia_type := normalSinusKey,
      category := "normal", rate_range := (60, 100), rate_regularity := "regular",
      pr_interval := some (120, 200), qrs_duration := some (80, 100),
      qt_interval := some (350, 440) }),
   ("sinus_bradycardia",
    { name := "Sinus Bradycardia", arrhythmia_type := "sinus_bradycardia",
      category := "supraventricular", rate_range := (30, 59), rate_regularity := "regular",
      pr_interval := some (120, 200), qrs_duration := some (80, 100),
      mechanism := "automaticity",
      special_features := ["Normal P waves", "1:1 AV conduction"] }),
   ("av_block_first_degree",
    { name := "First Degree AV Block", arrhythmia_type := "av_block_first_degree",
      category := "supraventricular", rate_range := (40, 100), rate_regularity := "regular",
      pr_interval := some (210, 400), qrs_duration := some (80, 100),
      mechanism := "block",
      special_features := ["Prolonged PR interval", "All P waves conducted"] }),
   ("av_block_2_wenckebach",
    { name := "Second Degree AV Block Type I (Wenckebach)",
      arrhythmia_type := "av_block_2_wenckebach",
      category := "supraventricular", rate_range := (40, 80),
      rate_regularity := "regularly_irregular",
      pr_interval := some (200, 400), qrs_duration := some (80, 100),
      rhythm_pattern := "patterned", conduction := some "variable",
      mechanism := "block",
      special_features := ["Progressive PR prolongation", "Dropped beats", "Grouped beating"],
      urgency := "medium" }),
   ("av_block_2_mobitz",
    { name := "Second Degree AV Block Type II (Mobitz II)",
      arrhythmia_type := "av_block_2_mobitz",
      category := "supraventricular", rate_range := (30, 70),
      rate_regularity := "regularly_irregular",
      pr_interval := some (120, 200), qrs_duration := some (100, 140),
      conduction := some "variable", mechanism := "block",
      special_features := ["Fixed PR before dropped beat", "Wide QRS", "Can progress to complete block"],
      is_life_threatening := true, urgency := "high" }),
   ("av_block_complete",
    { name := "Third Degree (Complete) AV Block", arrhythmia_type := "av_block_complete",
      category := "supraventricular", rate_range := (20, 50), rate_regularity := "regular",
      pr_interval := none, qrs_duration := some (80, 160),
      mechanism := "block", origin := "ventricular",
      special_features := ["AV dissociation", "Independent P waves", "Escape rhythm"],
      is_life_threatening := true, urgency := "critical" }),
   ("atrial_fibrillation",
    { name := "Atrial Fibrillation", arrhythmia_type := "atrial_fibrillation",
      category := "supraventricular", rate_range := (60, 180), rate_regularity := "irregular",
      pr_interval := none, qrs_duration := some (80, 100),
      p_wave := ⟨0, 0, "absent"⟩, rhythm_pattern := "irregular",
      mechanism := "reentry", origin := "atrial",
      special_features := ["No P waves", "Fibrillatory baseline", "Irregularly irregular RR"],
      urgency := "medium" }),
   ("atrial_flutter",
    { name := "Atrial Flutter", arrhythmia_type := "atrial_flutter",
      category := "supraventricular", rate_range := (130, 150), rate_regularity := "regular",
      pr_interval := none, qrs_duration := some (80, 100),
      conduction := some "2:1", mechanism := "reentry", origin := "atrial",
      special_features := ["Sawtooth pattern", "Flutter waves ~300/min", "Regular AV conduction ratio"],
      urgency := "medium" }),
   ("avnrt",
    { name := "AV Nodal Reentrant Tachycardia (AVNRT)", arrhythmia_type := "avnrt",
      category := "supraventricular", rate_range := (140, 220), rate_regularity := "regular",
      pr_interval := some (80, 120), qrs_duration := some (80, 100),
      mechanism := "reentry", origin := "junctional",
      special_features := ["Pseudo-R' in V1", "Pseudo-S in inferior leads", "P waves hidden in QRS"],
      urgency := "medium" }),
   ("wpw_syndrome",
    { name := "Wolff-Parkinson-White Syndrome", arrhythmia_type := "wpw_syndrome",
      category := "supraventricular", rate_range := (140, 250), rate_regularity := "regular",
      pr_interval := some (80, 120), qrs_duration := some (100, 160),
      mechanism := "reentry", origin := "atrial",
      special_features := ["Delta wave", "Short PR", "Wide QRS", "Accessory pathway"],
      is_life_threatening := true, urgency := "high" }),
   (pvcKey,
    { name := "Premature Ventricular Contraction (PVC)", arrhythmia_type := pvcKey,
      category := "ventricular", rate_range := (60, 100), rate_regularity := "irregular",
      qrs_duration := some (120, 200),
      mechanism := "automaticity", origin := "ventricular",
      special_features := ["Wide QRS", "No preceding P", "Compensatory pause", "T wave opposite QRS"] }),
   ("ventricular_tachycardia_monomorphic",
    { name := "Monomorphic Ventricular Tachycardia",
      arrhythmia_type := "ventricular_tachycardia_monomorphic",
      category := "ventricular", rate_range := (100, 250), rate_regularity := "regular",
      qrs_duration := some (120, 200), p_wave := ⟨0, 0, "absent"⟩,
      mechanism := "reentry", origin := "ventricular",
      special_features := ["Wide QRS", "Uniform morphology", "AV dissociation"],
      is_life_threatening := true, urgency := "critical" }),
   (torsadesKey,
    { name := "Torsades de Pointes", arrhythmia_type := torsadesKey,
      category := "ventricular", rate_range := (200, 300), rate_regularity := "irregular",
      qrs_duration := some (120, 200),
      mechanism := "triggered", origin := "ventricular",
      special_features := ["Twisting QRS axis", "Associated with long QT", "Polymorphic"],
      is_life_threatening := true, urgency := "critical" }),
   (vfCoarseKey,
    { name := "Ventricular Fibrillation (Coarse)", arrhythmia_type := vfCoarseKey,
      category := "ventricular", rate_range := (300, 500), rate_regularity := "irregular",
      qrs_duration := none, p_wave := ⟨0, 0, "absent"⟩,
      mechanism := "reentry", origin := "ventricular",
      special_features := ["No organized QRS", "Chaotic rhythm", "Amplitude > 3mm"],
      is_life_threatening := true, urgency := "critical" }),
   (vfFineKey,
    { name := "Ventricular Fibrillation (Fine)", arrhythmia_type := vfFineKey,
      category := "ventricular", rate_range := (300, 500), rate_regularity := "irregular",
      qrs_duration := none,
      mechanism := "reentry", origin := "ventricular",
      special_features := ["Low amplitude fibrillation", "< 3mm amplitude", "May resemble asystole"],
      is_life_threatening := true, urgency := "critical" }),
   (asystoleKey,
    { name := "Asystole", arrhythmia_type := asystoleKey,
      category := "ventricular", rate_range := (0, 0), rate_regularity := "regular",
      qrs_duration := none, p_wave := ⟨0, 0, "absent"⟩,
      mechanism := "block", origin := "none",
      special_features := ["Flat line", "No electrical activity"],
      is_life_threatening := true, urgency := "critical" })]

/-- `get_arrhythmia_config` (`src/arrhythmias/config.py` lines 347-372):
return the catalogued configuration, or, for an identifier that is not in
`ARRHYTHMIA_CONFIGS`, silently substitute a default record. -/
def get_arrhythmia_config (a : String) : ArrhythmiaConfig :=
  match dictGet ARRHYTHMIA_CONFIGS a with
  | some c => c
  | none =>
    { name := pyTitle (a.replace "_" " "), arrhythmia_type := a,
      category := "unknown", rate_range := (60, 100), rate_regularity := "regular",
      mechanism := "unknown", origin := "unknown" }

/-- The warning/log output of `get_arrhythmia_config`: the source body
(`src/arrhythmias/config.py` lines 347-372) contains no `print`, `warnings`,
or `logging` statement on any path, so the emission list is empty for every
identifier, including the fallback path. -/
def get_arrhythmia_config_emits (_a : String) : List String := []

/-! ## Waveform templates (`src/data/arrhythmia_templates.py`) -/

/-- `np.tile` of a one-dimensional array. -/
def tile (l : List ℚ) (c : ℕ) : List ℚ := (List.replicate c l).flatten

/-- `buf[pos:pos+L] += wave[:L]` with `L = min(len(wave), len(buf) - pos)`:
numpy slice-add, truncated at the buffer end. -/
def addSeg (buf : List ℚ) (pos : ℕ) (wave : List ℚ) : List ℚ :=
  List.ofFn (fun i : Fin buf.length =>
    if pos ≤ (i : ℕ) ∧ (i : ℕ) < pos + wave.length then
      buf.getD i 0 + wave.getD ((i : ℕ) - pos) 0
    else buf.getD i 0)

/-- `buf[pos:pos+L] = wave[:L]`: numpy slice-assignment, truncated at the
buffer end. -/
def setSeg (buf : List ℚ) (pos : ℕ) (wave : List ℚ) : List ℚ :=
  List.ofFn (fun i : Fin buf.length =>
    if pos ≤ (i : ℕ) ∧ (i : ℕ) < pos + wave.length then
      wave.getD ((i : ℕ) - pos) 0
    else buf.getD i 0)

/-- `WaveTemplate` (`src/data/arrhythmia_templates.py` lines 27-34). -/
structure WaveTemplate where
  amplitude : ℚ
  duration_ms : ℚ
  shape : String
  polarity : ℤ := 1
  skew : ℚ := 0
deriving DecidableEq

/-- The sample count of `WaveTemplate.generate`
(`src/data/arrhythmia_templates.py` lines 38-40). -/
def WaveTemplate.samplesFor (w : WaveTemplate) (sr : ℚ) : ℕ :=
  let s := (pyInt (w.duration_ms * sr / 1000)).toNat
  if s < 2 then 2 else s

/-- The un-scaled wave of `WaveTemplate.generate`
(`src/data/arrhythmia_templates.py` lines 42-102), one branch per `shape`
tag; returns the samples and the advanced draw index (`noise`,
`fibrillation`, `vf_coarse` and `vf_fine` consume `np.random.randn` draws). -/
def waveRaw (E : NumEnv) (w : WaveTemplate) (sr : ℚ) (r : Rng) (k : ℕ) :
    List ℚ × ℕ :=
  let n := w.samplesFor sr
  if w.shape = "gaussian" then
    ((linspace (-3) 3 n).map (fun x => E.exp (-(x ^ 2))), k)
  else if w.shape = "triangle" then
    let half := n / 2
    (linspace 0 1 half ++ linspace 1 0 (n - half), k)
  else if w.shape = "sawtooth" then (linspace 1 (-1) n, k)
  else if w.shape = "sine" then ((linspace 0 E.pi n).map E.sin, k)
  else if w.shape = "noise" then
    (List.ofFn (fun i : Fin n => r (k + i) * 0.5), k + n)
  else if w.shape = "qrs" then
    let q_len := n / 5
    let r_len := n / 3
    let s_len := n - q_len - r_len
    ((linspace 0 E.pi q_len).map (fun x => -0.15 * E.sin x)
      ++ (linspace 0 E.pi r_len).map E.sin
      ++ (linspace 0 E.pi s_len).map (fun x => -0.3 * E.sin x), k)
  else if w.shape = "wide_qrs" then
    let m := (pyInt ((n : ℚ) * 1.5)).toNat
    let q_len := m / 4
    let r_len := m / 2
    let s_len := m - q_len - r_len
    ((linspace 0 E.pi q_len).map (fun x => -0.2 * E.sin x)
      ++ (linspace 0 E.pi r_len).map (fun x => 1.2 * E.sin x)
      ++ (linspace 0 E.pi s_len).map (fun x => -0.4 * E.sin x), k)
  else if w.shape = "delta" then
    let delta_len := n / 3
    let qrs_len := n - delta_len
    (linspace 0 0.3 delta_len
      ++ (linspace 0 E.pi qrs_len).map (fun x => 0.3 + 0.7 * E.sin x), k)
  else if w.shape = "flutter" then
    let cycles := max 1 (n / 30)
    let single := linspace 0.2 (-0.2) (n / cycles)
    ((tile single cycles).take n, k)
  else if w.shape = "fibrillation" then
    (List.ofFn (fun i : Fin n =>
      0.1 * r (k + i) + 0.05 * E.sin ((linspace 0 (8 * E.pi) n).getD i 0)), k + n)
  else if w.shape = "vf_coarse" then
    (List.ofFn (fun i : Fin n =>
      E.sin ((linspace 0 (4 * E.pi) n).getD i 0 + r (k + i) * 0.5)
        + 0.3 * r (k + n + i)), k + 2 * n)
  else if w.shape = "vf_fine" then
    (List.ofFn (fun i : Fin n =>
      0.3 * E.sin ((linspace 0 (6 * E.pi) n).getD i 0 + r (k + i) * 0.3)
        + 0.1 * r (k + n + i)), k + 2 * n)
  else if w.shape = "torsades" then
    (List.ofFn (fun i : Fin n =>
      E.sin ((linspace 0 (4 * E.pi) n).getD i 0)
        * (0.5 + 0.5 * E.sin ((linspace 0 (2 * E.pi) n).getD i 0))), k)
  else if w.shape = "brugada" then
    ((linspace 0 2 (n / 2)).map (fun x => 0.3 * E.exp (-(x ^ 2)))
      ++ (linspace 0 E.pi (n - n / 2)).map (fun x => -0.2 * E.sin x), k)
  else (List.replicate n 0, k)

/-- `WaveTemplate.generate` (`src/data/arrhythmia_templates.py` lines
36-108): the raw shape scaled by `amplitude * polarity`, then skew-rolled. -/
def WaveTemplate.generate (w : WaveTemplate) (E : NumEnv) (sr : ℚ) (r : Rng)
    (k : ℕ) : List ℚ × ℕ :=
  let p := waveRaw E w sr r k
  let scaled := p.1.map (fun x => x * w.amplitude * (w.polarity : ℚ))
  if w.skew ≠ 0 then
    (roll scaled (pyInt ((scaled.length : ℚ) * w.skew * 0.2)), p.2)
  else (scaled, p.2)

/-- `ECGTemplate` (`src/data/arrhythmia_templates.py` lines 111-128). -/
structure ECGTemplate where
  name : String
  arrhythmia_type : String
  p_wave : Option WaveTemplate := none
  qrs_complex : WaveTemplate := ⟨1.0, 80, "qrs", 1, 0⟩
  t_wave : Option WaveTemplate := none
  pr_interval : ℚ := 160
  qt_interval : ℚ := 400
  rate_bpm : ℚ × ℚ := (60, 100)
  rr_variability : ℚ := 0.05
  regularity : String := "regular"
  pattern : Option String := none
  baseline : String := "flat"
  lead_adjustments : List (String × ℚ) := []
deriving DecidableEq

/-- `ECGTemplate.generate_beat` (`src/data/arrhythmia_templates.py` lines
130-184): one cardiac cycle.  The source's `elif` chain over `baseline` is
rendered with the three early-return chaotic branches first; this preserves
semantics because `baseline` matches at most one branch. -/
def ECGTemplate.generate_beat (t : ECGTemplate) (E : NumEnv) (sr : ℚ)
    (lead : String) (r : Rng) (k : ℕ) : List ℚ × ℕ :=
  let rate0 := (t.rate_bpm.1 + t.rate_bpm.2) / 2
  let rate := if rate0 ≤ 0 then 60 else rate0
  let rr_ms := 60000 / rate
  let total : ℕ := (pyInt (rr_ms * sr / 1000)).toNat
  let lead_scale := dictGetD t.lead_adjustments lead 1.0
  if t.baseline = "chaotic" then
    let p := WaveTemplate.generate ⟨1.0, rr_ms, "vf_coarse", 1, 0⟩ E sr r k
    ((p.1.take total).map (· * lead_scale), p.2)
  else if t.baseline = "chaotic_fine" then
    let p := WaveTemplate.generate ⟨0.3, rr_ms, "vf_fine", 1, 0⟩ E sr r k
    ((p.1.take total).map (· * lead_scale), p.2)
  else if t.baseline = "torsades" then
    let p := WaveTemplate.generate ⟨1.0, rr_ms, "torsades", 1, 0⟩ E sr r k
    ((p.1.take total).map (· * lead_scale), p.2)
  else
    let beat0 : List ℚ := List.replicate total 0
    let q1 : List ℚ × ℕ :=
      if t.baseline = "fibrillatory" then
        (List.ofFn (fun i : Fin total => beat0.getD i 0 + 0.05 * r (k + i)),
         k + total)
      else if t.baseline = "flutter" then
        let pf := WaveTemplate.generate ⟨0.2, rr_ms, "flutter", 1, 0⟩ E sr r k
        (addSeg beat0 0 (pf.1.take (min pf.1.length total)), pf.2)
      else (beat0, k)
    let q2 : List ℚ × ℕ :=
      match t.p_wave with
      | some pw =>
        let pp := pw.generate E sr r q1.2
        (addSeg q1.1 0 pp.1, pp.2)
      | none => q1
    let pos0 := (pyInt (t.pr_interval * sr / 1000)).toNat
    let pos := if total ≤ pos0 then total / 4 else pos0
    let pq := t.qrs_complex.generate E sr r q2.2
    let beat3 := addSeg q2.1 pos pq.1
    let q4 : List ℚ × ℕ :=
      match t.t_wave with
      | some tw =>
        let t_pos := pos + pq.1.length + (pyInt (80 * sr / 1000)).toNat
        let pt := tw.generate E sr r pq.2
        (if t_pos < total then addSeg beat3 t_pos pt.1 else beat3, pt.2)
      | none => (beat3, pq.2)
    (q4.1.map (· * lead_scale), q4.2)

/-! ### The `TEMPLATES` catalog (`src/data/arrhythmia_templates.py` lines
191-721), one named record per arrhythmia, keyed by the enum value string. -/

def tmplNormalSinus : ECGTemplate :=
  { name := "Normal Sinus Rhythm", arrhythmia_type := normalSinusKey,
    p_wave := some ⟨0.15, 80, "gaussian", 1, 0⟩,
    qrs_complex := ⟨1.0, 80, "qrs", 1, 0⟩,
    t_wave := some ⟨0.3, 160, "gaussian", 1, 0⟩,
    rate_bpm := (60, 100), regularity := "regular",
    lead_adjustments := [("I", 0.8), ("II", 1.0), ("III", 0.6), ("aVR", -0.5),
      ("aVL", 0.5), ("aVF", 0.8), ("V1", -0.4), ("V2", 0.3), ("V3", 0.7),
      ("V4", 1.0), ("V5", 0.9), ("V6", 0.8)] }

def tmplSinusBradycardia : ECGTemplate :=
  { name := "Sinus Bradycardia", arrhythmia_type := "sinus_bradycardia",
    p_wave := some ⟨0.15, 80, "gaussian", 1, 0⟩,
    qrs_complex := ⟨1.0, 80, "qrs", 1, 0⟩,
    t_wave := some ⟨0.3, 160, "gaussian", 1, 0⟩,
    rate_bpm := (35, 59), qt_interval := 440, regularity := "regular" }

def tmplSickSinus : ECGTemplate :=
  { name := "Sick Sinus Syndrome", arrhythmia_type := "sick_sinus_syndrome",
    p_wave := some ⟨0.15, 80, "gaussian", 1, 0⟩,
    qrs_complex := ⟨1.0, 80, "qrs", 1, 0⟩,
    t_wave := some ⟨0.3, 160, "gaussian", 1, 0⟩,
    rate_bpm := (30, 100), rr_variability := 0.35, regularity := "irregular",
    pattern := some "pauses" }

def tmplAvBlock1 : ECGTemplate :=
  { name := "First Degree AV Block", arrhythmia_type := "av_block_first_degree",
    p_wave := some ⟨0.15, 80, "gaussian", 1, 0⟩,
    qrs_complex := ⟨1.0, 80, "qrs", 1, 0⟩,
    t_wave := some ⟨0.3, 160, "gaussian", 1, 0⟩,
    pr_interval := 280, rate_bpm := (50, 90), regularity := "regular" }

def tmplWenckebach : ECGTemplate :=
  { name := "Second Degree AV Block Type I (Wenckebach)",
    arrhythmia_type := "av_block_2_wenckebach",
    p_wave := some ⟨0.15, 80, "gaussian", 1, 0⟩,
    qrs_complex := ⟨1.0, 80, "qrs", 1, 0⟩,
    t_wave := some ⟨0.3, 160, "gaussian", 1, 0⟩,
    pr_interval := 200, rate_bpm := (40, 80),
    regularity := "irregular", pattern := some "wenckebach" }

def tmplMobitz : ECGTemplate :=
  { name := "Second Degree AV Block Type II (Mobitz II)",
    arrhythmia_type := "av_block_2_mobitz",
    p_wave := some ⟨0.15, 80, "gaussian", 1, 0⟩,
    qrs_complex := ⟨1.0, 120, "wide_qrs", 1, 0⟩,
    t_wave := some ⟨0.3, 160, "gaussian", 1, 0⟩,
    pr_interval := 180, rate_bpm := (30, 70),
    regularity := "irregular", pattern := some "mobitz" }

def tmplAvBlock3 : ECGTemplate :=
  { name := "Complete (Third Degree) AV Block",
    arrhythmia_type := "av_block_complete",
    p_wave := some ⟨0.15, 80, "gaussian", 1, 0⟩,
    qrs_complex := ⟨1.2, 120, "wide_qrs", 1, 0⟩,
    t_wave := some ⟨0.35, 160, "gaussian", 1, 0⟩,
    pr_interval := 0, rate_bpm := (30, 45), regularity := "regular",
    pattern := some "av_dissociation" }

def tmplSinusTachycardia : ECGTemplate :=
  { name := "Sinus Tachycardia", arrhythmia_type := "sinus_tachycardia",
    p_wave := some ⟨0.18, 70, "gaussian", 1, 0⟩,
    qrs_complex := ⟨1.0, 80, "qrs", 1, 0⟩,
    t_wave := some ⟨0.25, 140, "gaussian", 1, 0⟩,
    pr_interval := 140, qt_interval := 320,
    rate_bpm := (100, 180), regularity := "regular" }

def tmplAtrialTachycardia : ECGTemplate :=
  { name := "Atrial Tachycardia", arrhythmia_type := "atrial_tachycardia",
    p_wave := some ⟨0.12, 70, "gaussian", 1, 0⟩,
    qrs_complex := ⟨1.0, 80, "qrs", 1, 0⟩,
    t_wave := some ⟨0.25, 140, "gaussian", 1, 0⟩,
    pr_interval := 140, rate_bpm := (150, 250), regularity := "regular" }

def tmplAtrialFlutter : ECGTemplate :=
  { name := "Atrial Flutter", arrhythmia_type := "atrial_flutter",
    p_wave := none,
    qrs_complex := ⟨1.0, 80, "qrs", 1, 0⟩,
    t_wave := some ⟨0.25, 140, "gaussian", 1, 0⟩,
    pr_interval := 0, rate_bpm := (130, 150),
    regularity := "regular", baseline := "flutter" }

def tmplAtrialFibrillation : ECGTemplate :=
  { name := "Atrial Fibrillation", arrhythmia_type := "atrial_fibrillation",
    p_wave := none,
    qrs_complex := ⟨1.0, 80, "qrs", 1, 0⟩,
    t_wave := some ⟨0.3, 160, "gaussian", 1, 0⟩,
    pr_interval := 0, rate_bpm := (60, 160),
    rr_variability := 0.30, regularity := "chaotic",
    baseline := "fibrillatory" }

def tmplAvnrt : ECGTemplate :=
  { name := "AV Nodal Reentrant Tachycardia (AVNRT)", arrhythmia_type := "avnrt",
    p_wave := none,
    qrs_complex := ⟨1.0, 80, "qrs", 1, 0⟩,
    t_wave := some ⟨0.25, 140, "gaussian", 1, 0⟩,
    pr_interval := 80, rate_bpm := (140, 220), regularity := "regular" }

def tmplAvrt : ECGTemplate :=
  { name := "AV Reentrant Tachycardia (AVRT)", arrhythmia_type := "avrt",
    p_wave := some ⟨0.1, 60, "gaussian", -1, 0⟩,
    qrs_complex := ⟨1.0, 80, "qrs", 1, 0⟩,
    t_wave := some ⟨0.25, 140, "gaussian", 1, 0⟩,
    pr_interval := 100, rate_bpm := (140, 250), regularity := "regular" }

def tmplWpw : ECGTemplate :=
  { name := "Wolff-Parkinson-White Syndrome", arrhythmia_type := "wpw_syndrome",
    p_wave := some ⟨0.15, 70, "gaussian", 1, 0⟩,
    qrs_complex := ⟨1.2, 130, "delta", 1, 0⟩,
    t_wave := some ⟨0.3, 140, "gaussian", 1, 0⟩,
    pr_interval := 100, rate_bpm := (100, 250), regularity := "regular" }

def tmplPsvt : ECGTemplate :=
  { name := "Paroxysmal Supraventricular Tachycardia (PSVT)",
    arrhythmia_type := "psvt",
    p_wave := none,
    qrs_complex := ⟨1.0, 80, "qrs", 1, 0⟩,
    t_wave := some ⟨0.25, 140, "gaussian", 1, 0⟩,
    pr_interval := 0, rate_bpm := (150, 220), regularity := "regular" }

def tmplMat : ECGTemplate :=
  { name := "Multifocal Atrial Tachycardia (MAT)",
    arrhythmia_type := "multifocal_atrial_tachy",
    p_wave := some ⟨0.15, 80, "gaussian", 1, 0⟩,
    qrs_complex := ⟨1.0, 80, "qrs", 1, 0⟩,
    t_wave := some ⟨0.3, 160, "gaussian", 1, 0⟩,
    rate_bpm := (100, 180), rr_variability := 0.20,
    regularity := "irregular", pattern := some "mat" }

def tmplFocalAt : ECGTemplate :=
  { name := "Focal Atrial Tachycardia", arrhythmia_type := "focal_atrial_tachy",
    p_wave := some ⟨0.12, 70, "gaussian", 1, 0⟩,
    qrs_complex := ⟨1.0, 80, "qrs", 1, 0⟩,
    t_wave := some ⟨0.25, 140, "gaussian", 1, 0⟩,
    rate_bpm := (150, 250), regularity := "regular" }

def tmplIntraAtrialReentry : ECGTemplate :=
  { name := "Intra-atrial Reentrant Tachycardia",
    arrhythmia_type := "intra_atrial_reentry",
    p_wave := some ⟨0.12, 80, "gaussian", 1, 0⟩,
    qrs_complex := ⟨1.0, 80, "qrs", 1, 0⟩,
    t_wave := some ⟨0.25, 140, "gaussian", 1, 0⟩,
    rate_bpm := (130, 200), regularity := "regular" }

def tmplSinusNodeReentry : ECGTemplate :=
  { name := "Sinus Node Reentrant Tachycardia",
    arrhythmia_type := "sinus_node_reentry",
    p_wave := some ⟨0.15, 80, "gaussian", 1, 0⟩,
    qrs_complex := ⟨1.0, 80, "qrs", 1, 0⟩,
    t_wave := some ⟨0.3, 160, "gaussian", 1, 0⟩,
    rate_bpm := (100, 150), regularity := "regular" }

def tmplEctopicAtrial : ECGTemplate :=
  { name := "Ectopic Atrial Rhythm", arrhythmia_type := "ectopic_atrial_rhythm",
    p_wave := some ⟨0.12, 80, "gaussian", 1, 0⟩,
    qrs_complex := ⟨1.0, 80, "qrs", 1, 0⟩,
    t_wave := some ⟨0.3, 160, "gaussian", 1, 0⟩,
    rate_bpm := (60, 100), regularity := "regular" }

def tmplAtypicalFlutter : ECGTemplate :=
  { name := "Atypical Atrial Flutter", arrhythmia_type := "atypical_atrial_flutter",
    p_wave := none,
    qrs_complex := ⟨1.0, 80, "qrs", 1, 0⟩,
    t_wave := some ⟨0.25, 140, "gaussian", 1, 0⟩,
    rate_bpm := (120, 200), baseline := "flutter", regularity := "regular" }

def tmplPac : ECGTemplate :=
  { name := "Premature Atrial Contraction (PAC)",
    arrhythmia_type := "premature_atrial_contraction",
    p_wave := some ⟨0.12, 70, "gaussian", 1, 0⟩,
    qrs_complex := ⟨1.0, 80, "qrs", 1, 0⟩,
    t_wave := some ⟨0.3, 160, "gaussian", 1, 0⟩,
    rate_bpm := (60, 100), pattern := some "premature" }

def tmplPjc : ECGTemplate :=
  { name := "Premature Junctional Contraction (PJC)",
    arrhythmia_type := "premature_junctional_contraction",
    p_wave := none,
    qrs_complex := ⟨1.0, 80, "qrs", 1, 0⟩,
    t_wave := some ⟨0.3, 160, "gaussian", 1, 0⟩,
    rate_bpm := (60, 100), pattern := some "premature" }

def tmplJunctionalEscape : ECGTemplate :=
  { name := "Junctional Escape Rhythm",
    arrhythmia_type := "junctional_escape_rhythm",
    p_wave := none,
    qrs_complex := ⟨1.0, 80, "qrs", 1, 0⟩,
    t_wave := some ⟨0.3, 160, "gaussian", 1, 0⟩,
    rate_bpm := (40, 60), regularity := "regular" }

def tmplJunctionalTachy : ECGTemplate :=
  { name := "Junctional Tachycardia", arrhythmia_type := "junctional_tachycardia",
    p_wave := none,
    qrs_complex := ⟨1.0, 80, "qrs", 1, 0⟩,
    t_wave := some ⟨0.3, 160, "gaussian", 1, 0⟩,
    rate_bpm := (70, 130), regularity := "regular" }

def tmplJet : ECGTemplate :=
  { name := "Junctional Ectopic Tachycardia (JET)",
    arrhythmia_type := "junctional_ectopic_tachy",
    p_wave := none,
    qrs_complex := ⟨1.0, 80, "qrs", 1, 0⟩,
    t_wave := some ⟨0.25, 140, "gaussian", 1, 0⟩,
    rate_bpm := (120, 200), regularity := "regular" }

def tmplWanderingPacemaker : ECGTemplate :=
  { name := "Wandering Atrial Pacemaker",
    arrhythmia_type := "wandering_atrial_pacemaker",
    p_wave := some ⟨0.15, 80, "gaussian", 1, 0⟩,
    qrs_complex := ⟨1.0, 80, "qrs", 1, 0⟩,
    t_wave := some ⟨0.3, 160, "gaussian", 1, 0⟩,
    rate_bpm := (60, 100), rr_variability := 0.15,
    regularity := "irregular", pattern := some "wandering" }

def tmplSinusArrhythmia : ECGTemplate :=
  { name := "Sinus Arrhythmia", arrhythmia_type := "sinus_arrhythmia",
    p_wave := some ⟨0.15, 80, "gaussian", 1, 0⟩,
    qrs_complex := ⟨1.0, 80, "qrs", 1, 0⟩,
    t_wave := some ⟨0.3, 160, "gaussian", 1, 0⟩,
    rate_bpm := (60, 100), rr_variability := 0.15, regularity := "irregular" }

def tmplSinusPause : ECGTemplate :=
  { name := "Sinus Pause", arrhythmia_type := "sinus_pause",
    p_wave := some ⟨0.15, 80, "gaussian", 1, 0⟩,
    qrs_complex := ⟨1.0, 80, "qrs", 1, 0⟩,
    t_wave := some ⟨0.3, 160, "gaussian", 1, 0⟩,
    rate_bpm := (50, 80), pattern := some "pause" }

def tmplSinusArrest : ECGTemplate :=
  { name := "Sinus Arrest", arrhythmia_type := "sinus_arrest",
    p_wave := some ⟨0.15, 80, "gaussian", 1, 0⟩,
    qrs_complex := ⟨1.0, 100, "qrs", 1, 0⟩,
    t_wave := some ⟨0.3, 160, "gaussian", 1, 0⟩,
    rate_bpm := (30, 60), pattern := some "arrest" }

def tmplSinoatrialBlock : ECGTemplate :=
  { name := "Sinoatrial Exit Block", arrhythmia_type := "sinoatrial_exit_block",
    p_wave := some ⟨0.15, 80, "gaussian", 1, 0⟩,
    qrs_complex := ⟨1.0, 80, "qrs", 1, 0⟩,
    t_wave := some ⟨0.3, 160, "gaussian", 1, 0⟩,
    rate_bpm := (50, 80), pattern := some "sa_block" }

def tmplPvc : ECGTemplate :=
  { name := "Premature Ventricular Contraction (PVC)", arrhythmia_type := pvcKey,
    p_wave := none,
    qrs_complex := ⟨1.8, 140, "wide_qrs", 1, 0⟩,
    t_wave := some ⟨0.5, 140, "gaussian", -1, 0⟩,
    rate_bpm := (60, 100), pattern := some "pvc" }

def tmplPvcBigeminy : ECGTemplate :=
  { name := "PVC Bigeminy", arrhythmia_type := "pvc_bigeminy",
    p_wave := none,
    qrs_complex := ⟨1.8, 140, "wide_qrs", 1, 0⟩,
    t_wave := some ⟨0.5, 140, "gaussian", -1, 0⟩,
    rate_bpm := (60, 100), pattern := some "bigeminy" }

def tmplPvcTrigeminy : ECGTemplate :=
  { name := "PVC Trigeminy", arrhythmia_type := "pvc_trigeminy",
    p_wave := none,
    qrs_complex := ⟨1.8, 140, "wide_qrs", 1, 0⟩,
    t_wave := some ⟨0.5, 140, "gaussian", -1, 0⟩,
    rate_bpm := (60, 100), pattern := some "trigeminy" }

def tmplPvcCouplet : ECGTemplate :=
  { name := "PVC Couplet", arrhythmia_type := "pvc_couplet",
    p_wave := none,
    qrs_complex := ⟨1.8, 140, "wide_qrs", 1, 0⟩,
    t_wave := some ⟨0.5, 140, "gaussian", -1, 0⟩,
    rate_bpm := (60, 100), pattern := some "couplet" }

def tmplPvcTriplet : ECGTemplate :=
  { name := "PVC Triplet (NSVT)", arrhythmia_type := "pvc_triplet",
    p_wave := none,
    qrs_complex := ⟨1.5, 140, "wide_qrs", 1, 0⟩,
    t_wave := some ⟨0.4, 120, "gaussian", -1, 0⟩,
    rate_bpm := (140, 200), pattern := some "triplet" }

def tmplAivr : ECGTemplate :=
  { name := "Accelerated Idioventricular Rhythm (AIVR)",
    arrhythmia_type := "accelerated_idioventricular_rhythm",
    p_wave := none,
    qrs_complex := ⟨1.3, 140, "wide_qrs", 1, 0⟩,
    t_wave := some ⟨0.4, 140, "gaussian", -1, 0⟩,
    rate_bpm := (40, 110), regularity := "regular" }

def tmplVentEscape : ECGTemplate :=
  { name := "Ventricular Escape Rhythm",
    arrhythmia_type := "ventricular_escape_rhythm",
    p_wave := none,
    qrs_complex := ⟨1.5, 160, "wide_qrs", 1, 0⟩,
    t_wave := some ⟨0.5, 160, "gaussian", -1, 0⟩,
    rate_bpm := (20, 40), regularity := "regular" }

def tmplVtMono : ECGTemplate :=
  { name := "Monomorphic Ventricular Tachycardia",
    arrhythmia_type := "ventricular_tachycardia_monomorphic",
    p_wave := none,
    qrs_complex := ⟨1.5, 140, "wide_qrs", 1, 0⟩,
    t_wave := some ⟨0.4, 120, "gaussian", -1, 0⟩,
    rate_bpm := (140, 220), regularity := "regular" }

def tmplVtPoly : ECGTemplate :=
  { name := "Polymorphic Ventricular Tachycardia",
    arrhythmia_type := "ventricular_tachycardia_polymorphic",
    p_wave := none,
    qrs_complex := ⟨1.5, 140, "wide_qrs", 1, 0⟩,
    t_wave := none,
    rate_bpm := (100, 250), rr_variability := 0.2, regularity := "irregular" }

def tmplVtSustained : ECGTemplate :=
  { name := "Sustained Ventricular Tachycardia",
    arrhythmia_type := "ventricular_tachycardia_sustained",
    p_wave := none,
    qrs_complex := ⟨1.5, 140, "wide_qrs", 1, 0⟩,
    t_wave := some ⟨0.4, 120, "gaussian", -1, 0⟩,
    rate_bpm := (100, 250), regularity := "regular" }

def tmplVtNonsustained : ECGTemplate :=
  { name := "Non-Sustained Ventricular Tachycardia (NSVT)",
    arrhythmia_type := "ventricular_tachycardia_nonsustained",
    p_wave := none,
    qrs_complex := ⟨1.5, 140, "wide_qrs", 1, 0⟩,
    t_wave := some ⟨0.4, 120, "gaussian", -1, 0⟩,
    rate_bpm := (100, 250), pattern := some "nsvt" }

def tmplTorsades : ECGTemplate :=
  { name := "Torsades de Pointes", arrhythmia_type := torsadesKey,
    p_wave := none,
    qrs_complex := ⟨1.2, 150, "wide_qrs", 1, 0⟩,
    t_wave := none,
    rate_bpm := (200, 300), baseline := "torsades", regularity := "irregular" }

def tmplVfCoarse : ECGTemplate :=
  { name := "Ventricular Fibrillation (Coarse)", arrhythmia_type := vfCoarseKey,
    p_wave := none, t_wave := none,
    qrs_complex := ⟨0.8, 200, "vf_coarse", 1, 0⟩,
    rate_bpm := (300, 500), baseline := "chaotic", regularity := "chaotic" }

def tmplVfFine : ECGTemplate :=
  { name := "Ventricular Fibrillation (Fine)", arrhythmia_type := vfFineKey,
    p_wave := none, t_wave := none,
    qrs_complex := ⟨0.3, 200, "vf_fine", 1, 0⟩,
    rate_bpm := (300, 500), baseline := "chaotic_fine", regularity := "chaotic" }

def tmplAsystole : ECGTemplate :=
  { name := "Asystole", arrhythmia_type := asystoleKey,
    p_wave := none, t_wave := none,
    qrs_complex := ⟨0.0, 0, "gaussian", 1, 0⟩,
    rate_bpm := (0, 0), regularity := "regular" }

def tmplIdioventricular : ECGTemplate :=
  { name := "Idioventricular Rhythm", arrhythmia_type := "idioventricular_rhythm",
    p_wave := none,
    qrs_complex := ⟨1.5, 160, "wide_qrs", 1, 0⟩,
    t_wave := some ⟨0.5, 160, "gaussian", -1, 0⟩,
    rate_bpm := (20, 40), regularity := "regular" }

def tmplParasystole : ECGTemplate :=
  { name := "Parasystole", arrhythmia_type := "parasystole",
    p_wave := none,
    qrs_complex := ⟨1.5, 140, "wide_qrs", 1, 0⟩,
    t_wave := some ⟨0.4, 140, "gaussian", -1, 0⟩,
    rate_bpm := (60, 100), pattern := some "parasystole" }

def tmplFusionBeat : ECGTemplate :=
  { name := "Fusion Beat", arrhythmia_type := "fusion_beat",
    p_wave := some ⟨0.15, 80, "gaussian", 1, 0⟩,
    qrs_complex := ⟨1.2, 100, "qrs", 1, 0⟩,
    t_wave := some ⟨0.3, 150, "gaussian", 1, 0⟩,
    rate_bpm := (60, 100), pattern := some "fusion" }

def tmplCaptureBeat : ECGTemplate :=
  { name := "Capture Beat", arrhythmia_type := "capture_beat",
    p_wave := some ⟨0.15, 80, "gaussian", 1, 0⟩,
    qrs_complex := ⟨1.0, 80, "qrs", 1, 0⟩,
    t_wave := some ⟨0.3, 160, "gaussian", 1, 0⟩,
    rate_bpm := (140, 200), pattern := some "capture" }

def tmplRonT : ECGTemplate :=
  { name := "R-on-T Phenomenon", arrhythmia_type := "r_on_t_phenomenon",
    p_wave := none,
    qrs_complex := ⟨1.8, 140, "wide_qrs", 1, 0⟩,
    t_wave := some ⟨0.5, 140, "gaussian", -1, 0⟩,
    rate_bpm := (60, 100), pattern := some "r_on_t" }

def tmplAshman : ECGTemplate :=
  { name := "Ashman Phenomenon", arrhythmia_type := "ashman_phenomenon",
    p_wave := some ⟨0.15, 80, "gaussian", 1, 0⟩,
    qrs_complex := ⟨1.2, 120, "wide_qrs", 1, 0⟩,
    t_wave := some ⟨0.3, 160, "gaussian", 1, 0⟩,
    rate_bpm := (80, 140), pattern := some "ashman" }

def tmplConcealedConduction : ECGTemplate :=
  { name := "Concealed Conduction", arrhythmia_type := "concealed_conduction",
    p_wave := some ⟨0.15, 80, "gaussian", 1, 0⟩,
    qrs_complex := ⟨1.0, 80, "qrs", 1, 0⟩,
    t_wave := some ⟨0.3, 160, "gaussian", 1, 0⟩,
    rate_bpm := (60, 100), pattern := some "concealed" }

def tmplAvDissociation : ECGTemplate :=
  { name := "AV Dissociation", arrhythmia_type := "av_dissociation",
    p_wave := some ⟨0.15, 80, "gaussian", 1, 0⟩,
    qrs_complex := ⟨1.2, 100, "qrs", 1, 0⟩,
    t_wave := some ⟨0.3, 160, "gaussian", 1, 0⟩,
    pr_interval := 0, rate_bpm := (60, 100), pattern := some "dissociation" }

def tmplBrugada : ECGTemplate :=
  { name := "Brugada Pattern", arrhythmia_type := "brugada_pattern",
    p_wave := some ⟨0.15, 80, "gaussian", 1, 0⟩,
    qrs_complex := ⟨1.0, 100, "brugada", 1, 0⟩,
    t_wave := some ⟨0.2, 160, "gaussian", -1, 0⟩,
    rate_bpm := (60, 100), regularity := "regular" }

/-- `TEMPLATES` (`src/data/arrhythmia_templates.py` lines 191-721), in the
source's insertion order, keyed by the enum value strings. -/
def TEMPLATES : List (String × ECGTemplate) :=
  [(normalSinusKey, tmplNormalSinus),
   ("sinus_bradycardia", tmplSinusBradycardia),
   ("sick_sinus_syndrome", tmplSickSinus),
   ("av_block_first_degree", tmplAvBlock1),
   ("av_block_2_wenckebach", tmplWenckebach),
   ("av_block_2_mobitz", tmplMobitz),
   ("av_block_complete", tmplAvBlock3),
   ("sinus_tachycardia", tmplSinusTachycardia),
   ("atrial_tachycardia", tmplAtrialTachycardia),
   ("atrial_flutter", tmplAtrialFlutter),
   ("atrial_fibrillation", tmplAtrialFibrillation),
   ("avnrt", tmplAvnrt),
   ("avrt", tmplAvrt),
   ("wpw_syndrome", tmplWpw),
   ("psvt", tmplPsvt),
   ("multifocal_atrial_tachy", tmplMat),
   ("focal_atrial_tachy", tmplFocalAt),
   ("intra_atrial_reentry", tmplIntraAtrialReentry),
   ("sinus_node_reentry", tmplSinusNodeReentry),
   ("ectopic_atrial_rhythm", tmplEctopicAtrial),
   ("atypical_atrial_flutter", tmplAtypicalFlutter),
   ("premature_atrial_contraction", tmplPac),
   ("premature_junctional_contraction", tmplPjc),
   ("junctional_escape_rhythm", tmplJunctionalEscape),
   ("junctional_tachycardia", tmplJunctionalTachy),
   ("junctional_ectopic_tachy", tmplJet),
   ("wandering_atrial_pacemaker", tmplWanderingPacemaker),
   ("sinus_arrhythmia", tmplSinusArrhythmia),
   ("sinus_pause", tmplSinusPause),
   ("sinus_arrest", tmplSinusArrest),
   ("sinoatrial_exit_block", tmplSinoatrialBlock),
   (pvcKey, tmplPvc),
   ("pvc_bigeminy", tmplPvcBigeminy),
   ("pvc_trigeminy", tmplPvcTrigeminy),
   ("pvc_couplet", tmplPvcCouplet),
   ("pvc_triplet", tmplPvcTriplet),
   ("accelerated_idioventricular_rhythm", tmplAivr),
   ("ventricular_escape_rhythm", tmplVentEscape),
   ("ventricular_tachycardia_monomorphic", tmplVtMono),
   ("ventricular_tachycardia_polymorphic", tmplVtPoly),
   ("ventricular_tachycardia_sustained", tmplVtSustained),
   ("ventricular_tachycardia_nonsustained", tmplVtNonsustained),
   (torsadesKey, tmplTorsades),
   (vfCoarseKey, tmplVfCoarse),
   (vfFineKey, tmplVfFine),
   (asystoleKey, tmplAsystole),
   ("idioventricular_rhythm", tmplIdioventricular),
   ("parasystole", tmplParasystole),
   ("fusion_beat", tmplFusionBeat),
   ("capture_beat", tmplCaptureBeat),
   ("r_on_t_phenomenon", tmplRonT),
   ("ashman_phenomenon", tmplAshman),
   ("concealed_conduction", tmplConcealedConduction),
   ("av_dissociation", tmplAvDissociation),
   ("brugada_pattern", tmplBrugada)]

/-- `get_template` (`src/data/arrhythmia_templates.py` lines 728-732):
raises `ValueError` for an unknown arrhythmia, modelled as `none`. -/
def get_template (a : String) : Option ECGTemplate := dictGet TEMPLATES a

/-! ## Shared layer helpers (`src/layers/base.py`) -/

/-- `BaseLayer._add_noise` (`src/layers/base.py` lines 71-74):
`signal + np.random.normal(0, level * 0.1, signal.shape)`.  The Gaussian
variates are modelled as `sd * r i` over the abstract draw stream. -/
def addNoise (sig : List ℚ) (level : ℚ) (r : Rng) (k : ℕ) : List ℚ × ℕ :=
  (List.ofFn (fun i : Fin sig.length => sig.getD i 0 + level * 0.1 * r (k + i)),
   k + sig.length)

/-- `BaseLayer._apply_baseline_wander` (`src/layers/base.py` lines 76-80). -/
def baselineWander (E : NumEnv) (sr : ℚ) (sig : List ℚ) : List ℚ :=
  List.ofFn (fun i : Fin sig.length =>
    sig.getD i 0 + 0.05 * E.sin (2 * E.pi * 0.1 * ((i : ℚ) / sr)))

/-! ## The lookup layer (`src/layers/simple_layer.py`) -/

/-- The per-beat morphology step of `SimpleLayer._generate_lead_signal`
(`src/layers/simple_layer.py` lines 138-145): generate the template's beat;
for pattern `bigeminy` on odd beat indices, additionally generate the PVC
template's beat and use it instead (both generations consume draws, in
source order). -/
def simpleEffBeat (E : NumEnv) (t : ECGTemplate) (sr : ℚ) (lead : String)
    (cnt : ℕ) (r : Rng) (k : ℕ) : List ℚ × ℕ :=
  let p := t.generate_beat E sr lead r k
  if t.pattern = some "bigeminy" ∧ cnt % 2 = 1 then
    tmplPvc.generate_beat E sr lead r p.2
  else p

/-- One inter-beat advance of `SimpleLayer._generate_lead_signal`
(`src/layers/simple_layer.py` lines 124-136): regularity-dependent jitter
range, one uniform draw, float truncation, and the 100-sample safety
floor. -/
def simpleAdvance (t : ECGTemplate) (hrv : ℚ) (base_rr : ℤ) (u : ℚ) : ℤ :=
  let rr_var : ℚ :=
    if t.regularity = "chaotic" then t.rr_variability
    else if t.regularity = "irregular" then t.rr_variability * 2
    else hrv * 0.5
  let rr_variation := pyInt ((base_rr : ℚ) * uniform (-rr_var) rr_var u)
  let current_rr := base_rr + rr_variation
  if current_rr < 100 then 100 else current_rr

/-- The beat-scheduling trace of `SimpleLayer._generate_lead_signal`'s
`while` loop (`src/layers/simple_layer.py` lines 120-153).  Each entry is
(beat offset, draw index at which that beat's waveform draws start, beat
index); the triple result also carries the final walk position and draw
index.  `fuel` bounds the iteration count; `num_samples + 1` iterations
always suffice because every advance is clamped to at least 100 samples.
The signal buffer is rebuilt from this trace by `simplePlace`; the split
preserves the source's interleaved draw order because the per-iteration
consumption (one jitter draw, then the beat's draws) is reproduced
index-for-index. -/
def simpleSched (E : NumEnv) (t : ECGTemplate) (sr : ℚ) (lead : String)
    (hrv : ℚ) (base_rr : ℤ) (n : ℕ) (r : Rng) :
    ℕ → ℤ → ℕ → ℕ → List (ℤ × ℕ × ℕ) × ℤ × ℕ
  | 0, pos, _, k => ([], pos, k)
  | fuel + 1, pos, cnt, k =>
    if pos < (n : ℤ) then
      let adv := simpleAdvance t hrv base_rr (r k)
      let k1 := (simpleEffBeat E t sr lead cnt r (k + 1)).2
      let res := simpleSched E t sr lead hrv base_rr n r fuel (pos + adv) (cnt + 1) k1
      ((pos, k + 1, cnt) :: res.1, res.2.1, res.2.2)
    else ([], pos, k)

/-- Replay of the beat placements of `SimpleLayer._generate_lead_signal`
(`src/layers/simple_layer.py` lines 147-150) over a `simpleSched` trace. -/
def simplePlace (E : NumEnv) (t : ECGTemplate) (sr : ℚ) (lead : String)
    (r : Rng) (buf : List ℚ) : List (ℤ × ℕ × ℕ) → List ℚ
  | [] => buf
  | (pos, kb, cnt) :: rest =>
    let beat := (simpleEffBeat E t sr lead cnt r kb).1
    simplePlace E t sr lead r (addSeg buf pos.toNat beat) rest

/-- `SimpleLayer._generate_vf_signal` (`src/layers/simple_layer.py` lines
180-209): five sine components (amplitude and phase drawn per component),
slow amplitude modulation, additive `randn` noise, and peak normalisation.
`none` models the `ValueError` numpy raises in `np.max` on an empty array
(zero requested samples). -/
def simpleVfSignal (E : NumEnv) (sr : ℚ) (n : ℕ) (r : Rng) (k : ℕ) :
    Option (List ℚ) × ℕ :=
  let pre : List ℚ := List.ofFn (fun i : Fin n =>
    let tv := (i : ℚ) / sr
    let s := (List.range 5).foldl (fun acc j =>
      acc + uniform 0.3 0.8 (r (k + 2 * j))
          * E.sin (2 * E.pi * ((j : ℚ) + 4) * tv + uniform 0 (2 * E.pi) (r (k + 2 * j + 1)))) 0
    s * (0.5 + 0.5 * E.sin (2 * E.pi * 0.5 * tv)) + 0.2 * r (k + 10 + i))
  match npMax (pre.map (fun x => |x|)) with
  | none => (none, k + 10 + n)
  | some m => (some (pre.map (fun x => x / m * 0.8)), k + 10 + n)

/-- `SimpleLayer._generate_lead_signal` (`src/layers/simple_layer.py` lines
91-162).  Returns the signal together with the ghost trace of scheduled
beat offsets and the final walk position; `none` models the
`ZeroDivisionError` raised when the drawn rate is exactly zero and the
`ValueError` of the VF path at zero samples. -/
def simpleLeadSignal (E : NumEnv) (t : ECGTemplate) (sr : ℚ) (n : ℕ)
    (lead : String) (noise hrv : ℚ) (r : Rng) (k : ℕ) :
    Option (List ℚ × List ℤ × ℤ) × ℕ :=
  if t.arrhythmia_type = asystoleKey then
    let p := addNoise (List.replicate n 0) (noise * 0.1) r k
    (some (p.1, [], 0), p.2)
  else if t.arrhythmia_type = vfCoarseKey then
    let p := simpleVfSignal E sr n r k
    match p.1 with
    | none => (none, p.2)
    | some sig => (some (sig, [], 0), p.2)
  else
    let rate := uniform t.rate_bpm.1 t.rate_bpm.2 (r k)
    if rate = 0 then (none, k + 1)
    else
      let base_rr_ms := 60000 / rate
      let base_rr := pyInt (base_rr_ms * sr / 1000)
      let sched := simpleSched E t sr lead hrv base_rr n r (n + 1) 0 0 (k + 1)
      let sig0 := simplePlace E t sr lead r (List.replicate n 0) sched.1
      let p1 := addNoise sig0 noise r sched.2.2
      let sig2 := if t.baseline = "flat" then baselineWander E sr p1.1 else p1.1
      (some (sig2, sched.1.map (fun e => e.1), sched.2.1), p1.2)

/-- The `for lead in leads: signals[lead] = ...` loop shared by every
layer's `generate`: run the per-lead generator `f` at the current draw
index, store its signal under the lead key, and thread the index; a
per-lead exception (`none`) aborts the whole call. -/
def leadsFold (f : String → ℕ → Option (List ℚ × ℕ)) :
    List String → List (String × List ℚ) → ℕ →
      Option (List (String × List ℚ) × ℕ)
  | [], acc, k => some (acc, k)
  | lead :: rest, acc, k =>
    match f lead k with
    | none => none
    | some (sig, k') => leadsFold f rest (dictSet acc lead sig) k'

/-- `SimpleLayer.generate` (`src/layers/simple_layer.py` lines 50-89). -/
def SimpleLayer.generate (E : NumEnv) (c : ArrhythmiaConfig) (sr : ℚ)
    (n : ℕ) (leads : List String) (noise hrv : ℚ) (r : Rng) (k : ℕ) :
    Option (List (String × List ℚ) × ℕ) :=
  match get_template c.arrhythmia_type with
  | none => none
  | some t =>
    leadsFold (fun lead j =>
      match simpleLeadSignal E t sr n lead noise hrv r j with
      | (none, _) => none
      | (some out, j') => some (out.1, j')) leads [] k

/-! ## The parametric layer (`src/layers/intermediate_layer.py`) -/

/-- The parameter record of `IntermediateLayer._init_params`
(`src/layers/intermediate_layer.py` lines 32-42), values in seconds/mV. -/
structure IntParams where
  p_duration : ℚ := 0.08
  pr_interval : ℚ := 0.16
  qrs_duration : ℚ := 0.08
  qt_interval : ℚ := 0.40
  p_amplitude : ℚ := 0.15
  r_amplitude : ℚ := 1.0
  t_amplitude : ℚ := 0.3
deriving DecidableEq

/-- `IntermediateLayer._update_params_for_arrhythmia`
(`src/layers/intermediate_layer.py` lines 70-89). -/
def interUpdateParams (c : ArrhythmiaConfig) : IntParams :=
  let p0 : IntParams := {}
  let p1 := match c.pr_interval with
    | some ab => { p0 with pr_interval := (ab.1 + ab.2) / 2 / 1000 }
    | none => p0
  let p2 := match c.qrs_duration with
    | some ab => { p1 with qrs_duration := (ab.1 + ab.2) / 2 / 1000 }
    | none => p1
  if c.p_wave.morphology = "absent" then { p2 with p_amplitude := 0 }
  else if c.p_wave.morphology = "inverted" then
    { p2 with p_amplitude := -|c.p_wave.amplitude| }
  else p2

/-- A row of `IntermediateLayer._get_lead_transform`'s coefficient table. -/
structure LeadTransform where
  p_scale : ℚ
  qrs_scale : ℚ
  t_scale : ℚ
deriving DecidableEq

/-- The coefficient table of `IntermediateLayer._get_lead_transform`
(`src/layers/intermediate_layer.py` lines 216-229). -/
def leadTransformTable : List (String × LeadTransform) :=
  [("I", ⟨1.0, 0.8, 1.0⟩), ("II", ⟨1.2, 1.0, 1.1⟩), ("III", ⟨0.5, 0.6, 0.5⟩),
   ("aVR", ⟨-0.5, -0.5, -0.5⟩), ("aVL", ⟨0.6, 0.4, 0.6⟩),
   ("aVF", ⟨0.8, 0.8, 0.7⟩), ("V1", ⟨0.6, -0.5, -0.3⟩), ("V2", ⟨0.5, 0.2, 0.5⟩),
   ("V3", ⟨0.4, 0.6, 0.7⟩), ("V4", ⟨0.3, 0.9, 0.8⟩), ("V5", ⟨0.3, 1.0, 0.9⟩),
   ("V6", ⟨0.3, 0.9, 0.9⟩)]

/-- `IntermediateLayer._get_lead_transform` (lines 213-230): table lookup
with identity defaults for unknown leads. -/
def interLeadTransform (lead : String) : LeadTransform :=
  dictGetD leadTransformTable lead ⟨1.0, 1.0, 1.0⟩

/-- One advance of `IntermediateLayer._calculate_beat_positions`
(`src/layers/intermediate_layer.py` lines 143-152).  Unlike the simple
layer, there is no lower clamp on the resulting interval. -/
def interAdvance (c : ArrhythmiaConfig) (hrv : ℚ) (base_rr : ℤ) (u : ℚ) : ℤ :=
  let variation : ℚ :=
    if c.rate_regularity = "regular" then hrv * 0.02
    else if c.rate_regularity = "irregular" then 0.3
    else hrv * 0.15
  base_rr + pyInt ((base_rr : ℚ) * uniform (-variation) variation u)

/-- The `while` loop of `IntermediateLayer._calculate_beat_positions`
(lines 137-153): append the current offset, then advance.  `fuel` bounds
the iterations; under the stream well-formedness and positive-rate bounds
used below every advance is at least one sample, so `num_samples + 1`
iterations reproduce the source loop exactly. -/
def interLoop (c : ArrhythmiaConfig) (hrv : ℚ) (base_rr : ℤ) (n : ℕ)
    (r : Rng) : ℕ → ℤ → ℕ → List ℤ × ℤ × ℕ
  | 0, pos, k => ([], pos, k)
  | fuel + 1, pos, k =>
    if pos < (n : ℤ) then
      let res := interLoop c hrv base_rr n r fuel
        (pos + interAdvance c hrv base_rr (r k)) (k + 1)
      (pos :: res.1, res.2.1, res.2.2)
    else ([], pos, k)

/-- `IntermediateLayer._calculate_beat_positions` (lines 127-154); `none`
models the `ZeroDivisionError` of `60.0 / rate` when the drawn rate is 0
(the asystole configuration's rate range is `(0, 0)`). -/
def interPositions (c : ArrhythmiaConfig) (sr hrv : ℚ) (n : ℕ) (r : Rng)
    (k : ℕ) : Option (List ℤ × ℤ × ℕ) :=
  let rate := uniform c.rate_range.1 c.rate_range.2 (r k)
  if rate = 0 then none
  else
    let base_rr := pyInt ((60 / rate) * sr)
    some (interLoop c hrv base_rr n r (n + 1) 0 (k + 1))

/-- `IntermediateLayer._parametric_qrs` (lines 190-211) evaluated at a
single time point. -/
def interQrsAt (E : NumEnv) (center duration amplitude t : ℚ) : ℚ :=
  let sigma := duration / 6
  let q_center := center - duration / 3
  let s_center := center + duration / 3
  let qv := -0.15 * amplitude * E.exp (-((t - q_center) ^ 2) / (2 * (sigma / 2) ^ 2))
  let rv := amplitude * E.exp (-((t - center) ^ 2) / (2 * sigma ^ 2))
  let sv := -0.3 * amplitude * E.exp (-((t - s_center) ^ 2) / (2 * (sigma / 2) ^ 2))
  qv + rv + sv

/-- `IntermediateLayer._generate_parametric_beat` (lines 156-188); `none`
models the `ZeroDivisionError` of `60.0 / rate` when the mean configured
rate is zero.  The beat consumes no random draws. -/
def interBeat (E : NumEnv) (c : ArrhythmiaConfig) (sr : ℚ)
    (params : IntParams) (lt : LeadTransform) : Option (List ℚ) :=
  let rate := (c.rate_range.1 + c.rate_range.2) / 2
  if rate = 0 then none
  else
    let rr := 60 / rate
    let beat_samples := (pyInt (rr * sr)).toNat
    let ts := linspace 0 rr beat_samples
    some (List.ofFn (fun i : Fin beat_samples =>
      let tv := ts.getD i 0
      let pPart :=
        if params.p_amplitude ≠ 0 then
          let p_center := params.pr_interval - params.p_duration / 2
          let p_sigma := params.p_duration / 4
          params.p_amplitude * E.exp (-((tv - p_center) ^ 2) / (2 * p_sigma ^ 2))
            * lt.p_scale
        else 0
      let qrs_center := params.pr_interval + params.qrs_duration / 2
      let qrsPart :=
        interQrsAt E qrs_center params.qrs_duration params.r_amplitude tv
          * lt.qrs_scale
      let t_center := qrs_center + 0.2
      let tPart :=
        params.t_amplitude * E.exp (-((tv - t_center) ^ 2) / (2 * (0.06 : ℚ) ^ 2))
          * lt.t_scale
      pPart + qrsPart + tPart))

/-- The placement loop of `IntermediateLayer._generate_lead_signal`
(lines 111-119): slice-assign the beat at each position (the source
regenerates the identical, draw-free beat each iteration). -/
def interPlace (buf : List ℚ) (beat : List ℚ) : List ℤ → List ℚ
  | [] => buf
  | pos :: rest => interPlace (setSeg buf pos.toNat beat) beat rest

/-- `IntermediateLayer._generate_lead_signal` (lines 91-125). -/
def interLeadSignal (E : NumEnv) (c : ArrhythmiaConfig) (sr : ℚ)
    (params : IntParams) (n : ℕ) (lead : String) (noise hrv : ℚ) (r : Rng)
    (k : ℕ) : Option (List ℚ × ℕ) :=
  match interPositions c sr hrv n r k with
  | none => none
  | some res =>
    match interBeat E c sr params (interLeadTransform lead) with
    | none => none
    | some beat =>
      let sig0 := interPlace (List.replicate n 0) beat res.1
      let p1 := addNoise sig0 noise r res.2.2
      some (baselineWander E sr p1.1, p1.2)

/-- `IntermediateLayer.generate` (`src/layers/intermediate_layer.py` lines
44-68). -/
def IntermediateLayer.generate (E : NumEnv) (c : ArrhythmiaConfig) (sr : ℚ)
    (n : ℕ) (leads : List String) (noise hrv : ℚ) (r : Rng) (k : ℕ) :
    Option (List (String × List ℚ) × ℕ) :=
  leadsFold (fun lead j =>
    interLeadSignal E c sr (interUpdateParams c) n lead noise hrv r j)
    leads [] k

/-! ## The biophysical layer (`src/layers/realistic_layer.py`) -/

/-- The four-variable state of `HodgkinHuxleyModel` (lines 27-68). -/
structure HHState where
  V : ℚ
  m : ℚ
  h : ℚ
  n : ℚ
deriving DecidableEq

/-- `HodgkinHuxleyModel._alpha_m` (lines 74-78), with the singularity
guard at `V = -40`. -/
def alpha_m (E : NumEnv) (V : ℚ) : ℚ :=
  if |V + 40| < 1 / 1000000 then 1.0
  else 0.1 * (V + 40) / (1 - E.exp (-(V + 40) / 10))

/-- `HodgkinHuxleyModel._beta_m` (lines 80-82). -/
def beta_m (E : NumEnv) (V : ℚ) : ℚ := 4.0 * E.exp (-(V + 65) / 18)

/-- `HodgkinHuxleyModel._alpha_h` (lines 84-86). -/
def alpha_h (E : NumEnv) (V : ℚ) : ℚ := 0.07 * E.exp (-(V + 65) / 20)

/-- `HodgkinHuxleyModel._beta_h` (lines 88-90). -/
def beta_h (E : NumEnv) (V : ℚ) : ℚ := 1.0 / (1 + E.exp (-(V + 35) / 10))

/-- `HodgkinHuxleyModel._alpha_n` (lines 92-96), with the singularity
guard at `V = -55`. -/
def alpha_n (E : NumEnv) (V : ℚ) : ℚ :=
  if |V + 55| < 1 / 1000000 then 0.1
  else 0.01 * (V + 55) / (1 - E.exp (-(V + 55) / 10))

/-- `HodgkinHuxleyModel._beta_n` (lines 98-100). -/
def beta_n (E : NumEnv) (V : ℚ) : ℚ := 0.125 * E.exp (-(V + 65) / 80)

/-- `HodgkinHuxleyModel._m_inf` (lines 106-109). -/
def m_inf (E : NumEnv) (V : ℚ) : ℚ := alpha_m E V / (alpha_m E V + beta_m E V)

/-- `HodgkinHuxleyModel._h_inf` (lines 111-114). -/
def h_inf (E : NumEnv) (V : ℚ) : ℚ := alpha_h E V / (alpha_h E V + beta_h E V)

/-- `HodgkinHuxleyModel._n_inf` (lines 116-119). -/
def n_inf (E : NumEnv) (V : ℚ) : ℚ := alpha_n E V / (alpha_n E V + beta_n E V)

/-- `HodgkinHuxleyModel._tau_m` (lines 125-126). -/
def tau_m (E : NumEnv) (V : ℚ) : ℚ := 1 / (alpha_m E V + beta_m E V)

/-- `HodgkinHuxleyModel._tau_h` (lines 128-129). -/
def tau_h (E : NumEnv) (V : ℚ) : ℚ := 1 / (alpha_h E V + beta_h E V)

/-- `HodgkinHuxleyModel._tau_n` (lines 131-132). -/
def tau_n (E : NumEnv) (V : ℚ) : ℚ := 1 / (alpha_n E V + beta_n E V)

/-- `HodgkinHuxleyModel.I_ion` (lines 138-152): fast sodium
(`g_Na = 120`, `E_Na = 50`), delayed-rectifier potassium (`g_K = 36`,
`E_K = -77`) and leak (`g_L = 0.3`, `E_L = -54.4`) currents. -/
def I_ion (s : HHState) : ℚ :=
  120 * s.m ^ 3 * s.h * (s.V - 50) + 36 * s.n ^ 4 * (s.V - (-77))
    + 0.3 * (s.V - (-54.4))

/-- `HodgkinHuxleyModel.reset` (lines 63-68): resting state at
`V_rest = -65` with the gates at their steady-state values. -/
def hhRest (E : NumEnv) : HHState :=
  ⟨-65, m_inf E (-65), h_inf E (-65), n_inf E (-65)⟩

/-- `HodgkinHuxleyModel.step` (`src/layers/realistic_layer.py` lines
158-185): explicit-Euler update of `V` (`C_m = 1`), relaxation updates of
the three gates evaluated at the new potential, then the `[0,1]` clamp of
each gate. -/
def hhStep (E : NumEnv) (dt : ℚ) (s : HHState) (Istim : ℚ) : HHState :=
  let Itot := I_ion s
  let V' := s.V + (Istim - Itot) / 1.0 * dt
  let m' := s.m + (m_inf E V' - s.m) / tau_m E V' * dt
  let h' := s.h + (h_inf E V' - s.h) / tau_h E V' * dt
  let n' := s.n + (n_inf E V' - s.n) / tau_n E V' * dt
  ⟨V', clip01 m', clip01 h', clip01 n'⟩

/-- The integration loop of `HodgkinHuxleyModel.simulate_action_potential`
(lines 211-220), collecting the membrane potential after each step. -/
def hhTrace (E : NumEnv) (dt : ℚ) (stimf : ℕ → ℚ) : HHState → ℕ → ℕ → List ℚ
  | _, 0, _ => []
  | s, rem + 1, i =>
    let s' := hhStep E dt s (stimf i)
    s'.V :: hhTrace E dt stimf s' rem (i + 1)

/-- `HodgkinHuxleyModel.simulate_action_potential` (lines 187-222). -/
def simulateAP (E : NumEnv)
    (dt duration_ms stim_start stim_duration stim_amplitude : ℚ) : List ℚ :=
  let n_steps := (pyInt (duration_ms / dt)).toNat
  let stimf : ℕ → ℚ := fun i =>
    let t := (i : ℚ) * dt
    if stim_start ≤ t ∧ t < stim_start + stim_duration then stim_amplitude
    else 0
  hhTrace E dt stimf (hhRest E) n_steps 0

/-- `RealisticLayer._get_stim_amplitude` (lines 340-345); the source tests
`'VENT' in template.arrhythmia_type.name`, rendered here as membership of
the 16 ventricular value strings. -/
def stimAmplitude (t : ECGTemplate) : ℚ :=
  if t.arrhythmia_type ∈ ventTypeKeys then 25.0 else 20.0

/-- The `while` loop of `RealisticLayer._generate_ap_train` (lines
310-336): simulate one action potential per beat, slice-assign it into the
fine-grid buffer, and advance by the jittered cycle length (one uniform
draw per beat when `rr_variability > 0`).  `fuel` bounds the iterations;
under the hypotheses used below every advance is at least one step, so
`n_steps + 1` iterations reproduce the source loop. -/
def apTrainLoop (E : NumEnv) (t : ECGTemplate) (dt cycle_ms : ℚ)
    (n_steps : ℕ) (r : Rng) : ℕ → ℤ → List ℚ → ℕ → List ℚ × ℕ
  | 0, _, buf, k => (buf, k)
  | fuel + 1, pos, buf, k =>
    if pos < (n_steps : ℤ) then
      let ap_duration := min 400 (cycle_ms * 0.95)
      let single := simulateAP E dt ap_duration 10 2 (stimAmplitude t)
      let buf' := setSeg buf pos.toNat single
      let p : ℚ × ℕ :=
        if 0 < t.rr_variability then
          (cycle_ms * uniform (-t.rr_variability) t.rr_variability (r k), k + 1)
        else (0, k)
      let next_cycle := pyInt ((cycle_ms + p.1) / dt)
      apTrainLoop E t dt cycle_ms n_steps r fuel (pos + next_cycle) buf' p.2
    else (buf, k)

/-- `RealisticLayer._generate_ap_train` (lines 292-338). -/
def apTrain (E : NumEnv) (t : ECGTemplate) (dt duration_ms : ℚ) (r : Rng)
    (k : ℕ) : List ℚ × ℕ :=
  let rate0 := (t.rate_bpm.1 + t.rate_bpm.2) / 2
  let rate := if rate0 ≤ 0 then 60 else rate0
  let cycle_ms := 60000 / rate
  let n_steps := (pyInt (duration_ms / dt)).toNat
  apTrainLoop E t dt cycle_ms n_steps r (n_steps + 1) 0
    (List.replicate n_steps 0) k

/-- A row of `RealisticLayer._get_lead_transfer`'s coefficient table. -/
structure LeadTransfer where
  delay : ℚ
  amplitude : ℚ
  invert : Bool
deriving DecidableEq

/-- The coefficient table of `RealisticLayer._get_lead_transfer`
(`src/layers/realistic_layer.py` lines 378-391). -/
def leadTransferTable : List (String × LeadTransfer) :=
  [("I", ⟨0, 0.8, false⟩), ("II", ⟨2, 1.0, false⟩), ("III", ⟨4, 0.6, false⟩),
   ("aVR", ⟨1, 0.5, true⟩), ("aVL", ⟨3, 0.5, false⟩), ("aVF", ⟨3, 0.7, false⟩),
   ("V1", ⟨5, 0.4, true⟩), ("V2", ⟨4, 0.6, false⟩), ("V3", ⟨3, 0.8, false⟩),
   ("V4", ⟨2, 1.0, false⟩), ("V5", ⟨1, 0.9, false⟩), ("V6", ⟨0, 0.8, false⟩)]

/-- `RealisticLayer._get_lead_transfer` (lines 375-392): table lookup with
identity defaults for unknown leads. -/
def realLeadTransfer (lead : String) : LeadTransfer :=
  dictGetD leadTransferTable lead ⟨0, 1.0, false⟩

/-- `RealisticLayer._create_dipole_kernel` (lines 394-411): a
derivative-of-Gaussian kernel, amplitude-scaled, optionally inverted and
delay-rolled, then normalised by its absolute sum (a zero sum gives
numpy `nan`s without raising; over `ℚ` the division yields zeros). -/
def dipoleKernel (E : NumEnv) (size : ℕ) (c : LeadTransfer) : List ℚ :=
  let xs := linspace (-2) 2 size
  let k0 := xs.map (fun x => -x * E.exp (-(x ^ 2)))
  let k1 := k0.map (fun x => x * c.amplitude)
  let k2 := if c.invert then k1.map (fun x => x * (-1)) else k1
  let k3 :=
    if 0 < c.delay then roll k2 (pyInt ((size : ℚ) * c.delay / 20)) else k2
  let s := (k3.map (fun x => |x|)).sum
  k3.map (fun x => x / s)

/-- `np.convolve(a, v, mode='same')`: numpy raises `ValueError` on an
empty input (`a cannot be empty`), modelled as `none`; otherwise the
centred `max |a| |v|` window of the full discrete convolution. -/
def convolveSame (a v : List ℚ) : Option (List ℚ) :=
  if a.isEmpty then none
  else if v.isEmpty then none
  else
    let m := a.length
    let q := v.length
    let full := List.ofFn (fun j : Fin (m + q - 1) =>
      ∑ i in Finset.range m,
        if (i : ℕ) ≤ (j : ℕ) then a.getD i 0 * v.getD ((j : ℕ) - i) 0 else 0)
    let off := (min m q - 1) / 2
    some ((full.drop off).take (max m q))

/-- `RealisticLayer._forward_problem` (lines 347-373): convolve the action
potential with the lead's dipole kernel and normalise to the clinical
amplitude. -/
def forwardProblem (E : NumEnv) (dt : ℚ) (ap : List ℚ) (lead : String) :
    Option (List ℚ) :=
  let transfer := realLeadTransfer lead
  let kernel_size := (pyInt (30 / dt)).toNat
  let kernel := dipoleKernel E kernel_size transfer
  match convolveSame ap kernel with
  | none => none
  | some ecg =>
    match npMax (ecg.map (fun x => |x|)) with
    | none => none
    | some max_amp =>
      some (if 0 < max_amp then ecg.map (fun x => x / max_amp * transfer.amplitude)
            else ecg)

/-- `RealisticLayer._resample` (lines 413-417): `scipy.ndimage.zoom` with
`factor = target / len(signal)`.  Zoom's output length is
`round(len * factor)`; its cubic-spline sample values come from the
abstract `NumEnv.zoomVal` kernel.  `none` models the `ZeroDivisionError`
of the factor computation on an empty signal. -/
def resample (E : NumEnv) (sig : List ℚ) (target : ℕ) : Option (List ℚ) :=
  if sig.length = 0 then none
  else
    let factor : ℚ := (target : ℚ) / (sig.length : ℚ)
    let outLen := (pyRound ((sig.length : ℚ) * factor)).toNat
    some (List.ofFn (fun i : Fin outLen => E.zoomVal sig factor (i : ℕ)))

/-- One lead of `RealisticLayer._generate_vf_realistic` (lines 419-452):
six chaotic oscillators (amplitude and phase drawn per component),
amplitude modulation for coarse VF, additive noise, then peak
normalisation (`none` at zero samples, where `np.max` raises). -/
def realisticVfLead (E : NumEnv) (sr : ℚ) (n : ℕ) (isFine : Bool)
    (noise : ℚ) (r : Rng) (k : ℕ) : Option (List ℚ) × ℕ :=
  let amplitude : ℚ := if isFine then 0.3 else 0.8
  let pre : List ℚ := List.ofFn (fun i : Fin n =>
    let tv := (i : ℚ) / sr
    let s := (List.range 6).foldl (fun acc j =>
      let amp := amplitude * uniform 0.5 1.0 (r (k + 2 * j))
      let phase := uniform 0 (2 * E.pi) (r (k + 2 * j + 1))
      let freq_mod := ((j : ℚ) + 4) + 0.5 * E.sin (2 * E.pi * 0.3 * tv)
      acc + amp * E.sin (2 * E.pi * freq_mod * tv + phase)) 0
    if isFine then s else s * (0.5 + 0.5 * E.sin (2 * E.pi * 0.4 * tv)))
  let p1 := addNoise pre noise r (k + 12)
  match npMax (p1.1.map (fun x => |x|)) with
  | none => (none, p1.2)
  | some mx => (some (p1.1.map (fun x => x / mx * amplitude)), p1.2)

/-- One lead of `RealisticLayer._generate_torsades_realistic` (lines
454-486): a drawn base frequency and twist frequency, the twisting
product, `randn` chaos, and additive noise. -/
def realisticTorsadesLead (E : NumEnv) (sr : ℚ) (n : ℕ) (noise : ℚ)
    (r : Rng) (k : ℕ) : List ℚ × ℕ :=
  let base_freq := uniform 3.5 4.5 (r k)
  let twist_freq := uniform 0.5 1.0 (r (k + 1))
  let pre : List ℚ := List.ofFn (fun i : Fin n =>
    let tv := (i : ℚ) / sr
    E.sin (2 * E.pi * base_freq * tv)
      * (0.5 + 0.5 * E.sin (2 * E.pi * twist_freq * tv))
      + 0.1 * r (k + 2 + i))
  addNoise pre noise r (k + 2 + n)

/-- One lead of the standard beat-train path of `RealisticLayer.generate`
(lines 282-288): forward problem, noise, resampling. -/
def realisticStdLead (E : NumEnv) (dt : ℚ) (apt : List ℚ) (n : ℕ)
    (lead : String) (noise : ℚ) (r : Rng) (k : ℕ) : Option (List ℚ) × ℕ :=
  match forwardProblem E dt apt lead with
  | none => (none, k)
  | some ecg =>
    let p1 := addNoise ecg noise r k
    match resample E p1.1 n with
    | none => (none, p1.2)
    | some out => (some out, p1.2)

/-- `RealisticLayer.generate` (`src/layers/realistic_layer.py` lines
245-290): asystole, VF and torsades special branches, otherwise the
beat-train/forward-problem path.  The `hrv` argument is accepted and, as
in the source, never used (`_generate_ap_train` jitters by
`template.rr_variability`). -/
def RealisticLayer.generate (E : NumEnv) (c : ArrhythmiaConfig) (sr : ℚ)
    (n : ℕ) (leads : List String) (noise _hrv : ℚ) (r : Rng) (k : ℕ) :
    Option (List (String × List ℚ) × ℕ) :=
  match get_template c.arrhythmia_type with
  | none => none
  | some t =>
    if c.arrhythmia_type = asystoleKey then
      leadsFold (fun _lead j =>
        let p := addNoise (List.replicate n 0) (noise * 0.1) r j
        some (p.1, p.2)) leads [] k
    else if c.arrhythmia_type = vfCoarseKey ∨ c.arrhythmia_type = vfFineKey then
      leadsFold (fun _lead j =>
        match realisticVfLead E sr n (c.arrhythmia_type = vfFineKey) noise r j with
        | (none, _) => none
        | (some sig, j') => some (sig, j')) leads [] k
    else if c.arrhythmia_type = torsadesKey then
      leadsFold (fun _lead j =>
        let p := realisticTorsadesLead E sr n noise r j
        some (p.1, p.2)) leads [] k
    else
      let duration_ms := ((n : ℚ) / sr) * 1000
      let p := apTrain E t 0.1 duration_ms r k
      leadsFold (fun lead j =>
        match realisticStdLead E 0.1 p.1 n lead noise r j with
        | (none, _) => none
        | (some sig, j') => some (sig, j')) leads [] p.2

/-! ## The facade (`src/core/simulator.py`) -/

/-- `LayerType` (`src/core/simulator.py` lines 19-23). -/
inductive LayerType
  | simple
  | intermediate
  | realistic
deriving DecidableEq

/-- `ECGSignal` (`src/core/ecg_signal.py` lines 13-29). -/
structure ECGSignal where
  signals : List (String × List ℚ)
  leads : List String
  sampling_rate : ℚ
  arrhythmia : String
  duration : ℚ

/-- `ECGSignal.get_lead` (`src/core/ecg_signal.py` lines 42-46): raises
`ValueError` (modelled `none`) exactly when the requested lead is not in
the record's signals dict. -/
def ECGSignal.get_lead (s : ECGSignal) (lead : String) : Option (List ℚ) :=
  dictGet s.signals lead

/-- `CardiacSimulator.generate` (`src/core/simulator.py` lines 104-150):
config lookup, sample-count computation `int(duration * sampling_rate)`,
layer dispatch, and packaging.  Negative durations (where `np.zeros`
would raise) are outside the model: `Int.toNat` clamps them to zero. -/
def CardiacSimulator.generate (E : NumEnv) (layer : LayerType) (sr : ℚ)
    (arr : String) (duration : ℚ) (leads : List String) (noise hrv : ℚ)
    (r : Rng) (k : ℕ) : Option ECGSignal :=
  let c := get_arrhythmia_config arr
  let n := (pyInt (duration * sr)).toNat
  let res :=
    match layer with
    | .simple => SimpleLayer.generate E c sr n leads noise hrv r k
    | .intermediate => IntermediateLayer.generate E c sr n leads noise hrv r k
    | .realistic => RealisticLayer.generate E c sr n leads noise hrv r k
  match res with
  | none => none
  | some p => some ⟨p.1, leads, sr, arr, duration⟩

/-- `np.random.seed(s)`: after seeding, the global generator's draw stream
is a deterministic function of the seed alone; `gen` abstracts the
Mersenne-Twister expansion. -/
def npSeed (gen : ℕ → Rng) (seed : ℕ) : Rng := gen seed

/-! ## Layer state hand-off (`src/layers/base.py` lines 53-69,
`src/core/simulator.py` lines 83-102)

Python dict aliasing is made observable through a small heap: a `Store`
holds every `_state` dict, and a layer object holds the index of its own
dict.  `get_state`'s `.copy()` allocates a fresh dict with the same
entries; in-place mutation writes through an index. -/

/-- A `_state` dict. -/
abbrev StateDict (α : Type) := List (String × α)

/-- The heap of live `_state` dicts. -/
structure Store (α : Type) where
  dicts : List (StateDict α)

/-- Dereference a dict index. -/
def Store.read {α : Type} (st : Store α) (i : ℕ) : StateDict α :=
  st.dicts.getD i []

/-- Overwrite the dict at an index. -/
def Store.write {α : Type} (st : Store α) (i : ℕ) (d : StateDict α) :
    Store α :=
  ⟨st.dicts.set i d⟩

/-- Allocate a fresh dict, returning its index. -/
def Store.alloc {α : Type} (st : Store α) (d : StateDict α) : Store α × ℕ :=
  (⟨st.dicts ++ [d]⟩, st.dicts.length)

/-- A layer object: the reference to its `_state` dict
(`BaseLayer.__init__`, `src/layers/base.py` lines 19-27). -/
structure LayerObj where
  stateRef : ℕ

/-- Python `self_dict.update(other)`: write each of `other`'s entries into
`self_dict`, in iteration order. -/
def dictUpdate {α : Type} (d s : StateDict α) : StateDict α :=
  s.foldl (fun acc kv => dictSet acc kv.1 kv.2) d

/-- `BaseLayer.get_state` (`src/layers/base.py` lines 53-60):
`return self._state.copy()` — allocate a fresh dict with the same entries
and hand back a reference to the copy. -/
def getState {α : Type} (st : Store α) (L : LayerObj) : Store α × ℕ :=
  st.alloc (st.read L.stateRef)

/-- `BaseLayer.set_state` (lines 62-69): `self._state.update(state)`. -/
def setState {α : Type} (st : Store α) (L : LayerObj) (snapRef : ℕ) :
    Store α :=
  st.write L.stateRef (dictUpdate (st.read L.stateRef) (st.read snapRef))

/-- Layer construction (`BaseLayer.__init__`): a fresh empty `_state`. -/
def createLayer {α : Type} (st : Store α) : Store α × LayerObj :=
  let p := st.alloc []
  (p.1, ⟨p.2⟩)

/-- `CardiacSimulator.switch_layer` (`src/core/simulator.py` lines
83-102): snapshot the current layer's state, build the new layer, restore
the snapshot into it. -/
def switchLayer {α : Type} (st : Store α) (old : LayerObj) :
    Store α × LayerObj :=
  let p1 := getState st old
  let p2 := createLayer p1.1
  (setState p2.1 p2.2 p1.2, p2.2)

/-! ## Supporting lemmas -/

theorem clip01_nonneg (q : ℚ) : 0 ≤ clip01 q :=
  le_min (by norm_num) (le_max_left 0 q)

theorem clip01_le_one (q : ℚ) : clip01 q ≤ 1 := min_le_left 1 _

theorem uniform_lb {a b u : ℚ} (hab : a ≤ b) (hu : 0 ≤ u) :
    a ≤ uniform a b u := by
  have : 0 ≤ (b - a) * u := mul_nonneg (by linarith) hu
  unfold uniform; linarith

theorem uniform_ub {a b u : ℚ} (hab : a ≤ b) (hu : u ≤ 1) :
    uniform a b u ≤ b := by
  have : (b - a) * u ≤ (b - a) * 1 :=
    mul_le_mul_of_nonneg_left hu (by linarith)
  unfold uniform; linarith

theorem uniform_pos {a b u : ℚ} (ha : 0 < a) (hab : a ≤ b) (hu : 0 ≤ u) :
    0 < uniform a b u :=
  lt_of_lt_of_le ha (uniform_lb hab hu)

theorem uniform_degenerate (u : ℚ) : uniform (-0) 0 u = 0 := by
  simp [uniform]

theorem pyInt_natCast (n : ℕ) : pyInt (n : ℚ) = n := by
  simp [pyInt]

theorem pyInt_eq_floor {q : ℚ} (h : 0 ≤ q) : pyInt q = ⌊q⌋ := if_pos h

theorem one_le_pyInt {q : ℚ} (h : 1 ≤ q) : 1 ≤ pyInt q := by
  rw [pyInt_eq_floor (by linarith)]
  exact_mod_cast Int.le_floor.mpr (by exact_mod_cast h)

theorem pyInt_zero : pyInt 0 = 0 := by simp [pyInt]

theorem pyRound_natCast (n : ℕ) : pyRound (n : ℚ) = n := by
  unfold pyRound
  rw [Int.floor_eq_iff]
  constructor <;> push_cast <;> linarith

/-- Truncation bound used for loop-advance positivity: jitter strictly
above `-base` keeps the truncated advance at least one sample. -/
theorem one_le_add_pyInt {b : ℤ} {x : ℚ} (hb : 1 ≤ b) (hx : -(b : ℚ) < x) :
    1 ≤ b + pyInt x := by
  unfold pyInt
  split
  · rename_i h
    have : (0 : ℤ) ≤ ⌊x⌋ := Int.floor_nonneg.mpr h
    omega
  · have h1 : (-b : ℚ) < (⌈x⌉ : ℤ) := lt_of_lt_of_le hx (Int.le_ceil x)
    have h2 : -b < ⌈x⌉ := by exact_mod_cast h1
    omega

theorem getD_ofFn {n : ℕ} (f : Fin n → ℚ) (j : ℕ) (hj : j < n) :
    (List.ofFn f).getD j 0 = f ⟨j, hj⟩ := by
  simp [List.getD_eq_getElem?_getD, List.getElem?_ofFn, hj]

theorem getD_ofFn_ge {n : ℕ} (f : Fin n → ℚ) (j : ℕ) (hj : ¬ j < n) :
    (List.ofFn f).getD j 0 = 0 := by
  simp [List.getD_eq_getElem?_getD, List.getElem?_ofFn, List.ofFnNthVal, hj]

theorem length_linspace (a b : ℚ) (n : ℕ) : (linspace a b n).length = n := by
  unfold linspace; split <;> simp

theorem length_roll (l : List ℚ) (s : ℤ) : (roll l s).length = l.length := by
  unfold roll
  split
  · rfl
  · rename_i h
    have hlen : 0 < l.length := Nat.pos_of_ne_zero h
    have hk : ((s % (l.length : ℤ)).toNat) ≤ l.length := by
      have h1 : s % (l.length : ℤ) < (l.length : ℤ) :=
        Int.emod_lt_of_pos s (by exact_mod_cast hlen)
      omega
    simp only [List.length_append, List.length_drop, List.length_take]
    omega

theorem length_addSeg (buf : List ℚ) (pos : ℕ) (w : List ℚ) :
    (addSeg buf pos w).length = buf.length := by simp [addSeg]

theorem length_setSeg (buf : List ℚ) (pos : ℕ) (w : List ℚ) :
    (setSeg buf pos w).length = buf.length := by simp [setSeg]

theorem addNoise_fst_length (sig : List ℚ) (level : ℚ) (r : Rng) (k : ℕ) :
    (addNoise sig level r k).1.length = sig.length := by simp [addNoise]

theorem addNoise_snd (sig : List ℚ) (level : ℚ) (r : Rng) (k : ℕ) :
    (addNoise sig level r k).2 = k + sig.length := rfl

theorem length_baselineWander (E : NumEnv) (sr : ℚ) (sig : List ℚ) :
    (baselineWander E sr sig).length = sig.length := by simp [baselineWander]

theorem npMax_some {l : List ℚ} (h : l ≠ []) : ∃ m, npMax l = some m := by
  cases l with
  | nil => exact absurd rfl h
  | cons x xs => exact ⟨xs.foldl max x, rfl⟩

theorem dictGet_dictSet_self {α : Type} (d : List (String × α)) (key : String)
    (v : α) : dictGet (dictSet d key v) key = some v := by
  induction d with
  | nil => simp [dictSet, dictGet]
  | cons p rest ih =>
    by_cases h : p.1 = key
    · simp [dictSet, dictGet, h]
    · simp [dictSet, dictGet, h, ih]

theorem dictGet_dictSet_ne {α : Type} (d : List (String × α))
    (key : String) (v : α) (key' : String) (h : key ≠ key') :
    dictGet (dictSet d key v) key' = dictGet d key' := by
  induction d with
  | nil => simp [dictSet, dictGet, h]
  | cons p rest ih =>
    by_cases hp : p.1 = key
    · simp [dictSet, dictGet, hp, h]
    · simp only [dictSet, hp, if_false, dictGet]
      by_cases hp' : p.1 = key'
      · simp [hp']
      · simp [hp', ih]

theorem dictGet_mem {α : Type} {d : List (String × α)} {key : String}
    {v : α} (h : dictGet d key = some v) : (key, v) ∈ d := by
  induction d with
  | nil => simp [dictGet] at h
  | cons p rest ih =>
    cases p with
    | mk a b =>
      by_cases hp : a = key
      · simp only [dictGet, if_pos hp] at h
        cases h
        subst hp
        exact List.mem_cons_self _ _
      · simp only [dictGet, if_neg hp] at h
        exact List.mem_cons_of_mem _ (ih h)

theorem dictGet_none_iff {α : Type} (d : List (String × α)) (key : String) :
    dictGet d key = none ↔ key ∉ d.map Prod.fst := by
  induction d with
  | nil => simp [dictGet]
  | cons p rest ih =>
    by_cases hp : p.1 = key
    · simp [dictGet, hp]
    · simp [dictGet, hp, ih, Ne.symm hp]

theorem dictGet_append {α : Type} (a b : List (String × α)) (key : String) :
    dictGet (a ++ b) key =
      match dictGet a key with
      | some v => some v
      | none => dictGet b key := by
  induction a with
  | nil => simp [dictGet]
  | cons p rest ih =>
    by_cases hp : p.1 = key
    · simp [dictGet, hp]
    · simp [dictGet, hp, ih]

theorem convolveSame_some {a v : List ℚ} (ha : a ≠ []) (hv : v ≠ []) :
    ∃ out, convolveSame a v = some out ∧
      out.length = max a.length v.length := by
  have ha' : a.isEmpty = false := by simpa [List.isEmpty_iff] using ha
  have hv' : v.isEmpty = false := by simpa [List.isEmpty_iff] using hv
  have hm : 1 ≤ a.length := List.length_pos.mpr ha
  have hq : 1 ≤ v.length := List.length_pos.mpr hv
  unfold convolveSame
  rw [ha', hv']
  simp only [Bool.false_eq_true, if_false]
  refine ⟨_, rfl, ?_⟩
  simp only [List.length_take, List.length_drop, List.length_ofFn]
  have hsum : max a.length v.length + min a.length v.length
      = a.length + v.length := max_add_min _ _
  omega

theorem resample_some (E : NumEnv) {sig : List ℚ} (h : sig.length ≠ 0)
    (target : ℕ) :
    ∃ out, resample E sig target = some out ∧ out.length = target := by
  unfold resample
  rw [if_neg h]
  refine ⟨_, rfl, ?_⟩
  have hq : ((sig.length : ℚ)) ≠ 0 := by exact_mod_cast h
  have hmul : (sig.length : ℚ) * ((target : ℚ) / (sig.length : ℚ))
      = (target : ℚ) := by field_simp
  rw [List.length_ofFn, hmul, pyRound_natCast, Int.toNat_natCast]

theorem dipoleKernel_length (E : NumEnv) (size : ℕ) (c : LeadTransfer) :
    (dipoleKernel E size c).length = size := by
  unfold dipoleKernel
  by_cases h1 : c.invert <;> by_cases h2 : 0 < c.delay <;>
    simp [h1, h2, length_roll, length_linspace]

theorem simplePlace_length (E : NumEnv) (t : ECGTemplate) (sr : ℚ)
    (lead : String) (r : Rng) :
    ∀ (sched : List (ℤ × ℕ × ℕ)) (buf : List ℚ),
      (simplePlace E t sr lead r buf sched).length = buf.length := by
  intro sched
  induction sched with
  | nil => intro buf; rfl
  | cons e rest ih =>
    intro buf
    obtain ⟨pos, kb, cnt⟩ := e
    simp only [simplePlace]
    rw [ih, length_addSeg]

theorem interPlace_length (beat : List ℚ) :
    ∀ (ps : List ℤ) (buf : List ℚ),
      (interPlace buf beat ps).length = buf.length := by
  intro ps
  induction ps with
  | nil => intro buf; rfl
  | cons pos rest ih =>
    intro buf
    simp only [interPlace]
    rw [ih, length_setSeg]

theorem apTrainLoop_length (E : NumEnv) (t : ECGTemplate) (dt cyc : ℚ)
    (N : ℕ) (r : Rng) :
    ∀ (fuel : ℕ) (pos : ℤ) (buf : List ℚ) (k : ℕ),
      (apTrainLoop E t dt cyc N r fuel pos buf k).1.length = buf.length := by
  intro fuel
  induction fuel with
  | zero => intro pos buf k; rfl
  | succ f ih =>
    intro pos buf k
    simp only [apTrainLoop]
    split
    · exact (ih _ _ _).trans (length_setSeg _ _ _)
    · rfl

theorem leadsFold_preserve {f : String → ℕ → Option (List ℚ × ℕ)} :
    ∀ (leads : List String) (acc : List (String × List ℚ)) (k : ℕ)
      (res : List (String × List ℚ)) (k' : ℕ),
      leadsFold f leads acc k = some (res, k') →
      ∀ key, key ∉ leads → dictGet res key = dictGet acc key := by
  intro leads
  induction leads with
  | nil =>
    intro acc k res k' h key _
    simp only [leadsFold] at h
    cases h
    rfl
  | cons lead rest ih =>
    intro acc k res k' h key hk
    simp only [leadsFold] at h
    cases hf : f lead k with
    | none => rw [hf] at h; cases h
    | some p =>
      rw [hf] at h
      have hkey : key ≠ lead ∧ key ∉ rest := by
        simpa [not_or] using hk
      have := ih (dictSet acc lead p.1) p.2 res k' h key hkey.2
      rw [this, dictGet_dictSet_ne _ _ _ _ (Ne.symm hkey.1)]

theorem leadsFold_ok {f : String → ℕ → Option (List ℚ × ℕ)}
    {P : String → List ℚ → Prop}
    (H : ∀ lead k, ∃ sig k', f lead k = some (sig, k') ∧ P lead sig) :
    ∀ (leads : List String) (acc : List (String × List ℚ)) (k : ℕ),
      ∃ res k', leadsFold f leads acc k = some (res, k') ∧
        ∀ lead ∈ leads, ∃ s, dictGet res lead = some s ∧ P lead s := by
  intro leads
  induction leads with
  | nil => intro acc k; exact ⟨acc, k, rfl, by simp⟩
  | cons lead rest ih =>
    intro acc k
    obtain ⟨sig, k1, hf, hP⟩ := H lead k
    obtain ⟨res, k2, hrun, hall⟩ := ih (dictSet acc lead sig) k1
    refine ⟨res, k2, ?_, ?_⟩
    · simp only [leadsFold, hf]
      exact hrun
    · intro l hl
      rcases List.mem_cons.mp hl with h1 | h2
      · subst h1
        by_cases hmem : l ∈ rest
        · exact hall l hmem
        · have hpres :=
            leadsFold_preserve rest (dictSet acc l sig) k1 res k2 hrun l hmem
          exact ⟨sig, by rw [hpres, dictGet_dictSet_self], hP⟩
      · exact hall l h2

theorem dictSet_not_mem {α : Type} {d : List (String × α)} {key : String}
    (h : dictGet d key = none) (v : α) :
    dictSet d key v = d ++ [(key, v)] := by
  induction d with
  | nil => rfl
  | cons p rest ih =>
    cases p with
    | mk a b =>
      by_cases hp : a = key
      · simp [dictGet, hp] at h
      · simp only [dictGet, if_neg hp] at h
        simp [dictSet, hp, ih h]

theorem dictUpdate_of_disjoint {α : Type} :
    ∀ (s acc : List (String × α)),
      (s.map Prod.fst).Nodup →
      (∀ kv ∈ s, dictGet acc kv.1 = none) →
      dictUpdate acc s = acc ++ s := by
  intro s
  induction s with
  | nil => intro acc _ _; simp [dictUpdate]
  | cons p rest ih =>
    intro acc hnd hnone
    cases p with
    | mk a b =>
      have h0 : dictGet acc a = none := hnone (a, b) (by simp)
      have hstep : dictUpdate acc ((a, b) :: rest)
          = dictUpdate (acc ++ [(a, b)]) rest := by
        simp only [dictUpdate, List.foldl_cons]
        rw [dictSet_not_mem h0]
      rw [hstep]
      have hnd' : (rest.map Prod.fst).Nodup := by
        simp only [List.map_cons, List.nodup_cons] at hnd
        exact hnd.2
      have hnotin : a ∉ rest.map Prod.fst := by
        simp only [List.map_cons, List.nodup_cons] at hnd
        exact hnd.1
      have harg : ∀ kv ∈ rest, dictGet (acc ++ [(a, b)]) kv.1 = none := by
        intro kv hkv
        have h2 : kv.1 ≠ a := by
          intro heq
          exact hnotin (heq ▸ List.mem_map_of_mem Prod.fst hkv)
        have hne : ¬ a = kv.1 := fun hh => h2 hh.symm
        have hone : dictGet [(a, b)] kv.1 = none := by simp [dictGet, hne]
        rw [dictGet_append, hnone kv (List.mem_cons_of_mem _ hkv)]
        exact hone
      rw [ih (acc ++ [(a, b)]) hnd' harg]
      simp

theorem dictUpdate_nil {α : Type} (s : List (String × α))
    (h : (s.map Prod.fst).Nodup) : dictUpdate [] s = s := by
  simpa using dictUpdate_of_disjoint s [] h (fun _ _ => rfl)

theorem store_read_write_self {α : Type} (st : Store α) (i : ℕ)
    (d : StateDict α) (h : i < st.dicts.length) :
    (st.write i d).read i = d := by
  simp [Store.write, Store.read, List.getD_eq_getElem?_getD,
    List.getElem?_set_self, h]

theorem store_read_write_ne {α : Type} (st : Store α) (i j : ℕ)
    (d : StateDict α) (h : i ≠ j) :
    (st.write i d).read j = st.read j := by
  simp [Store.write, Store.read, List.getD_eq_getElem?_getD,
    List.getElem?_set_ne, h]

theorem store_read_alloc_old {α : Type} (st : Store α) (d : StateDict α)
    (i : ℕ) (h : i < st.dicts.length) :
    (st.alloc d).1.read i = st.read i := by
  simp [Store.alloc, Store.read, List.getD_eq_getElem?_getD,
    List.getElem?_append_left h]

theorem store_read_alloc_new {α : Type} (st : Store α) (d : StateDict α) :
    (st.alloc d).1.read (st.alloc d).2 = d := by
  simp only [Store.alloc, Store.read, List.getD_eq_getElem?_getD]
  rw [List.getElem?_append_right (le_refl _)]
  simp

theorem npMax_eq_none {l : List ℚ} : npMax l = none ↔ l = [] := by
  cases l <;> simp [npMax]

theorem getD_replicate_zero (n j : ℕ) :
    (List.replicate n (0 : ℚ)).getD j 0 = 0 := by
  induction n generalizing j with
  | zero => simp
  | succ m ih =>
    cases j with
    | zero => simp [List.replicate]
    | succ i => simpa [List.replicate] using ih i

theorem addNoise_zeros_bound (n : ℕ) (level : ℚ) (r : Rng) (k : ℕ)
    (hb : ∀ i, |r i| ≤ 1) (hl : 0 ≤ level) :
    ∀ j, |((addNoise (List.replicate n 0) level r k).1).getD j 0|
      ≤ level * 0.1 := by
  intro j
  unfold addNoise
  by_cases hj : j < (List.replicate n (0 : ℚ) : List ℚ).length
  · rw [getD_ofFn _ j hj]
    rw [getD_replicate_zero, zero_add, abs_mul]
    have h1 := hb (k + j)
    have h2 : |level * 0.1| = level * 0.1 := abs_of_nonneg (by linarith)
    nlinarith [abs_nonneg (r (k + j)), abs_nonneg (level * 0.1)]
  · rw [getD_ofFn_ge _ j hj]
    simp
    linarith

/-! ### Catalog facts -/

theorem templates_type_eq_key : ∀ p ∈ TEMPLATES, p.2.arrhythmia_type = p.1 := by
  decide

theorem templates_rate_cases :
    ∀ p ∈ TEMPLATES, p.2.arrhythmia_type = asystoleKey ∨
      p.2.arrhythmia_type = vfCoarseKey ∨
      (0 < p.2.rate_bpm.1 ∧ p.2.rate_bpm.1 ≤ p.2.rate_bpm.2) := by
  decide

theorem configs_type_eq_key :
    ∀ p ∈ ARRHYTHMIA_CONFIGS, p.2.arrhythmia_type = p.1 := by decide

theorem configs_rate_cases :
    ∀ p ∈ ARRHYTHMIA_CONFIGS, p.1 = asystoleKey ∨
      (0 < p.2.rate_range.1 ∧ p.2.rate_range.1 ≤ p.2.rate_range.2 ∧
        p.2.rate_range.2 ≤ 500) := by
  decide

theorem get_arrhythmia_config_type (a : String) :
    (get_arrhythmia_config a).arrhythmia_type = a := by
  unfold get_arrhythmia_config
  cases h : dictGet ARRHYTHMIA_CONFIGS a with
  | none => rfl
  | some c => exact configs_type_eq_key (a, c) (dictGet_mem h)

theorem get_arrhythmia_config_rate (a : String) (h : a ≠ asystoleKey) :
    0 < (get_arrhythmia_config a).rate_range.1 ∧
      (get_arrhythmia_config a).rate_range.1
        ≤ (get_arrhythmia_config a).rate_range.2 ∧
      (get_arrhythmia_config a).rate_range.2 ≤ 500 := by
  unfold get_arrhythmia_config
  cases hc : dictGet ARRHYTHMIA_CONFIGS a with
  | none => norm_num
  | some c =>
    rcases configs_rate_cases (a, c) (dictGet_mem hc) with h1 | h2
    · exact absurd h1 h
    · exact h2

/-! ### Per-lead success and length lemmas -/

theorem simpleVfSignal_ok (E : NumEnv) (sr : ℚ) (n : ℕ) (r : Rng) (k : ℕ)
    (hn : 1 ≤ n) :
    ∃ sig, (simpleVfSignal E sr n r k).1 = some sig ∧ sig.length = n := by
  simp only [simpleVfSignal]
  split
  · rename_i heq
    rw [npMax_eq_none] at heq
    have : n = 0 := by simpa using congrArg List.length heq
    omega
  · rename_i m heq
    exact ⟨_, rfl, by simp⟩

theorem simpleLeadSignal_ok (E : NumEnv) (t : ECGTemplate) (sr : ℚ) (n : ℕ)
    (lead : String) (noise hrv : ℚ) (r : Rng) (k : ℕ)
    (hr : unitOk r) (hn : 1 ≤ n)
    (hcase : t.arrhythmia_type = asystoleKey ∨
      t.arrhythmia_type = vfCoarseKey ∨
      (0 < t.rate_bpm.1 ∧ t.rate_bpm.1 ≤ t.rate_bpm.2)) :
    ∃ out k', simpleLeadSignal E t sr n lead noise hrv r k = (some out, k') ∧
      out.1.length = n := by
  unfold simpleLeadSignal
  by_cases h1 : t.arrhythmia_type = asystoleKey
  · rw [if_pos h1]
    exact ⟨_, _, rfl, by simp [addNoise]⟩
  · rw [if_neg h1]
    by_cases h2 : t.arrhythmia_type = vfCoarseKey
    · rw [if_pos h2]
      obtain ⟨sig, hs, hlen⟩ := simpleVfSignal_ok E sr n r k hn
      simp only [hs]
      exact ⟨_, _, rfl, hlen⟩
    · rw [if_neg h2]
      have hrt : 0 < t.rate_bpm.1 ∧ t.rate_bpm.1 ≤ t.rate_bpm.2 := by
        rcases hcase with h | h | h
        · exact absurd h h1
        · exact absurd h h2
        · exact h
      have hrate : 0 < uniform t.rate_bpm.1 t.rate_bpm.2 (r k) :=
        uniform_pos hrt.1 hrt.2 (hr k).1
      rw [if_neg hrate.ne']
      refine ⟨_, _, rfl, ?_⟩
      by_cases hb : t.baseline = "flat" <;>
        simp [hb, length_baselineWander, addNoise_fst_length,
          simplePlace_length]

theorem interBeat_some (E : NumEnv) (c : ArrhythmiaConfig) (sr : ℚ)
    (params : IntParams) (lt : LeadTransform)
    (h : (c.rate_range.1 + c.rate_range.2) / 2 ≠ 0) :
    ∃ b, interBeat E c sr params lt = some b := by
  unfold interBeat
  rw [if_neg h]
  exact ⟨_, rfl⟩

theorem interPositions_some (c : ArrhythmiaConfig) (sr hrv : ℚ) (n : ℕ)
    (r : Rng) (k : ℕ)
    (h : uniform c.rate_range.1 c.rate_range.2 (r k) ≠ 0) :
    interPositions c sr hrv n r k =
      some (interLoop c hrv
        (pyInt ((60 / uniform c.rate_range.1 c.rate_range.2 (r k)) * sr))
        n r (n + 1) 0 (k + 1)) := by
  unfold interPositions
  rw [if_neg h]

theorem interLeadSignal_ok (E : NumEnv) (c : ArrhythmiaConfig) (sr : ℚ)
    (params : IntParams) (n : ℕ) (lead : String) (noise hrv : ℚ) (r : Rng)
    (k : ℕ) (hr : unitOk r) (hmin : 0 < c.rate_range.1)
    (hle : c.rate_range.1 ≤ c.rate_range.2) :
    ∃ sig k',
      interLeadSignal E c sr params n lead noise hrv r k = some (sig, k') ∧
      sig.length = n := by
  unfold interLeadSignal
  have hrate : 0 < uniform c.rate_range.1 c.rate_range.2 (r k) :=
    uniform_pos hmin hle (hr k).1
  rw [interPositions_some c sr hrv n r k hrate.ne']
  have hmean : (0 : ℚ) < (c.rate_range.1 + c.rate_range.2) / 2 := by linarith
  obtain ⟨b, hb⟩ :=
    interBeat_some E c sr params (interLeadTransform lead) hmean.ne'
  rw [hb]
  refine ⟨_, _, rfl, ?_⟩
  simp [length_baselineWander, addNoise_fst_length, interPlace_length]

theorem realisticVfLead_ok (E : NumEnv) (sr : ℚ) (n : ℕ) (isFine : Bool)
    (noise : ℚ) (r : Rng) (k : ℕ) (hn : 1 ≤ n) :
    ∃ sig k', realisticVfLead E sr n isFine noise r k = (some sig, k') ∧
      sig.length = n := by
  simp only [realisticVfLead]
  split
  · rename_i heq
    rw [npMax_eq_none] at heq
    have : n = 0 := by
      simpa [addNoise_fst_length] using congrArg List.length heq
    omega
  · rename_i m heq
    exact ⟨_, _, rfl, by simp [addNoise_fst_length]⟩

theorem realisticTorsadesLead_length (E : NumEnv) (sr : ℚ) (n : ℕ)
    (noise : ℚ) (r : Rng) (k : ℕ) :
    ((realisticTorsadesLead E sr n noise r k).1).length = n := by
  simp [realisticTorsadesLead, addNoise_fst_length]

theorem forwardProblem_some (E : NumEnv) (dt : ℚ) (ap : List ℚ)
    (lead : String) (hap : ap ≠ [])
    (hks : (pyInt (30 / dt)).toNat ≠ 0) :
    ∃ ecg, forwardProblem E dt ap lead = some ecg ∧ 1 ≤ ecg.length := by
  unfold forwardProblem
  have hker : dipoleKernel E ((pyInt (30 / dt)).toNat)
      (realLeadTransfer lead) ≠ [] := by
    intro h
    have hl := congrArg List.length h
    rw [dipoleKernel_length] at hl
    simp at hl
    exact hks (by omega)
  obtain ⟨out, hconv, hlen⟩ := convolveSame_some hap hker
  simp only [hconv]
  have h1 : 1 ≤ out.length := by
    rw [hlen]
    exact le_trans (List.length_pos.mpr hap) (le_max_left _ _)
  obtain ⟨m, hm⟩ := npMax_some
    (show out.map (fun x => |x|) ≠ [] by
      intro h
      rw [List.map_eq_nil_iff] at h
      subst h
      simp at h1)
  simp only [hm]
  refine ⟨_, rfl, ?_⟩
  split <;> simpa

theorem realisticStdLead_ok (E : NumEnv) (dt : ℚ) (apt : List ℚ) (n : ℕ)
    (lead : String) (noise : ℚ) (r : Rng) (k : ℕ) (hap : apt ≠ [])
    (hks : (pyInt (30 / dt)).toNat ≠ 0) :
    ∃ sig k', realisticStdLead E dt apt n lead noise r k = (some sig, k') ∧
      sig.length = n := by
  unfold realisticStdLead
  obtain ⟨ecg, hf, hlen⟩ := forwardProblem_some E dt apt lead hap hks
  rw [hf]
  obtain ⟨out, hres, holen⟩ := resample_some E
    (show ((addNoise ecg noise r k).1).length ≠ 0 by
      rw [addNoise_fst_length]; omega) n
  simp only [hres]
  exact ⟨_, _, rfl, holen⟩

theorem apTrain_length (E : NumEnv) (t : ECGTemplate) (dt dur : ℚ)
    (r : Rng) (k : ℕ) :
    (apTrain E t dt dur r k).1.length = (pyInt (dur / dt)).toNat := by
  unfold apTrain
  rw [apTrainLoop_length]
  simp

theorem kernel_steps_dt : (pyInt ((30 : ℚ) / 0.1)).toNat = 300 := by
  have h1 : ((30 : ℚ) / 0.1) = ((300 : ℕ) : ℚ) := by norm_num
  rw [h1, pyInt_natCast]
  rfl

theorem realistic_fine_steps (n : ℕ) :
    (pyInt (((n : ℚ) / 500) * 1000 / 0.1)).toNat = 20 * n := by
  have h1 : ((n : ℚ) / 500) * 1000 / 0.1 = ((20 * n : ℕ) : ℚ) := by
    push_cast
    ring
  rw [h1, pyInt_natCast, Int.toNat_natCast]

/-! ### Beat-scheduling lemmas -/

theorem simpleAdvance_ge (t : ECGTemplate) (hrv : ℚ) (b : ℤ) (u : ℚ) :
    100 ≤ simpleAdvance t hrv b u := by
  have haux : ∀ x : ℤ, (100 : ℤ) ≤ if x < 100 then 100 else x := by
    intro x; split <;> omega
  simp only [simpleAdvance]
  exact haux _

theorem simpleAdvance_hrv0 (t : ECGTemplate) (b : ℤ) (u : ℚ)
    (h1 : ¬ t.regularity = "chaotic") (h2 : ¬ t.regularity = "irregular") :
    simpleAdvance t 0 b u = if b < 100 then 100 else b := by
  simp only [simpleAdvance]
  rw [if_neg h1, if_neg h2]
  norm_num [uniform, pyInt_zero]

/-- Unfolding equation: exhausted fuel. -/
theorem simpleSched_zero (E : NumEnv) (t : ECGTemplate) (sr : ℚ)
    (lead : String) (hrv : ℚ) (b : ℤ) (n : ℕ) (r : Rng) (pos : ℤ)
    (cnt k : ℕ) :
    simpleSched E t sr lead hrv b n r 0 pos cnt k = ([], pos, k) := rfl

/-- Unfolding equation: one emitted beat. -/
theorem simpleSched_succ_of_lt (E : NumEnv) (t : ECGTemplate) (sr : ℚ)
    (lead : String) (hrv : ℚ) (b : ℤ) (n : ℕ) (r : Rng) (f : ℕ) (pos : ℤ)
    (cnt k : ℕ) (hlt : pos < (n : ℤ)) :
    simpleSched E t sr lead hrv b n r (f + 1) pos cnt k =
      ((pos, k + 1, cnt) ::
          (simpleSched E t sr lead hrv b n r f
            (pos + simpleAdvance t hrv b (r k)) (cnt + 1)
            (simpleEffBeat E t sr lead cnt r (k + 1)).2).1,
        (simpleSched E t sr lead hrv b n r f
          (pos + simpleAdvance t hrv b (r k)) (cnt + 1)
          (simpleEffBeat E t sr lead cnt r (k + 1)).2).2) := by
  simp only [simpleSched]
  rw [if_pos hlt]

/-- Unfolding equation: walk already past the buffer. -/
theorem simpleSched_succ_of_ge (E : NumEnv) (t : ECGTemplate) (sr : ℚ)
    (lead : String) (hrv : ℚ) (b : ℤ) (n : ℕ) (r : Rng) (f : ℕ) (pos : ℤ)
    (cnt k : ℕ) (hge : ¬ pos < (n : ℤ)) :
    simpleSched E t sr lead hrv b n r (f + 1) pos cnt k = ([], pos, k) := by
  simp only [simpleSched]
  rw [if_neg hge]

theorem simpleSched_entries_lt (E : NumEnv) (t : ECGTemplate) (sr : ℚ)
    (lead : String) (hrv : ℚ) (b : ℤ) (n : ℕ) (r : Rng) :
    ∀ (fuel : ℕ) (pos : ℤ) (cnt k : ℕ),
      ∀ e ∈ (simpleSched E t sr lead hrv b n r fuel pos cnt k).1,
        e.1 < (n : ℤ) := by
  intro fuel
  induction fuel with
  | zero =>
    intro pos cnt k e he
    rw [simpleSched_zero] at he
    simp at he
  | succ f ih =>
    intro pos cnt k e he
    by_cases hlt : pos < (n : ℤ)
    · rw [simpleSched_succ_of_lt E t sr lead hrv b n r f pos cnt k hlt] at he
      rcases List.mem_cons.mp he with h | h
      · rw [h]; exact hlt
      · exact ih _ _ _ e h
    · rw [simpleSched_succ_of_ge E t sr lead hrv b n r f pos cnt k hlt] at he
      simp at he

theorem simpleSched_final_ge (E : NumEnv) (t : ECGTemplate) (sr : ℚ)
    (lead : String) (hrv : ℚ) (b : ℤ) (n : ℕ) (r : Rng) :
    ∀ (fuel : ℕ) (pos : ℤ) (cnt k : ℕ), (n : ℤ) ≤ pos + fuel →
      (n : ℤ) ≤ (simpleSched E t sr lead hrv b n r fuel pos cnt k).2.1 := by
  intro fuel
  induction fuel with
  | zero =>
    intro pos cnt k h
    rw [simpleSched_zero]
    show (n : ℤ) ≤ pos
    push_cast at h
    omega
  | succ f ih =>
    intro pos cnt k h
    by_cases hlt : pos < (n : ℤ)
    · rw [simpleSched_succ_of_lt E t sr lead hrv b n r f pos cnt k hlt]
      show (n : ℤ) ≤ (simpleSched E t sr lead hrv b n r f
        (pos + simpleAdvance t hrv b (r k)) (cnt + 1)
        (simpleEffBeat E t sr lead cnt r (k + 1)).2).2.1
      refine ih _ _ _ ?_
      have := simpleAdvance_ge t hrv b (r k)
      push_cast at h ⊢
      omega
    · rw [simpleSched_succ_of_ge E t sr lead hrv b n r f pos cnt k hlt]
      show (n : ℤ) ≤ pos
      omega

theorem simpleSched_head (E : NumEnv) (t : ECGTemplate) (sr : ℚ)
    (lead : String) (hrv : ℚ) (b : ℤ) (n : ℕ) (r : Rng) :
    ∀ (fuel : ℕ) (pos : ℤ) (cnt k : ℕ),
      (simpleSched E t sr lead hrv b n r fuel pos cnt k).1 ≠ [] →
      ((simpleSched E t sr lead hrv b n r fuel pos cnt k).1.map
        (fun e => e.1)).getD 0 0 = pos := by
  intro fuel
  cases fuel with
  | zero =>
    intro pos cnt k h
    rw [simpleSched_zero] at h
    simp at h
  | succ f =>
    intro pos cnt k h
    by_cases hlt : pos < (n : ℤ)
    · rw [simpleSched_succ_of_lt E t sr lead hrv b n r f pos cnt k hlt]
      simp
    · rw [simpleSched_succ_of_ge E t sr lead hrv b n r f pos cnt k hlt] at h
      simp at h

theorem simpleSched_diff_ge100 (E : NumEnv) (t : ECGTemplate) (sr : ℚ)
    (lead : String) (hrv : ℚ) (b : ℤ) (n : ℕ) (r : Rng) :
    ∀ (fuel : ℕ) (pos : ℤ) (cnt k : ℕ) (i : ℕ),
      i + 1 < (simpleSched E t sr lead hrv b n r fuel pos cnt k).1.length →
      ((simpleSched E t sr lead hrv b n r fuel pos cnt k).1.map
          (fun e => e.1)).getD i 0 + 100 ≤
        ((simpleSched E t sr lead hrv b n r fuel pos cnt k).1.map
          (fun e => e.1)).getD (i + 1) 0 := by
  intro fuel
  induction fuel with
  | zero =>
    intro pos cnt k i h
    rw [simpleSched_zero] at h
    simp at h
  | succ f ih =>
    intro pos cnt k i h
    by_cases hlt : pos < (n : ℤ)
    · rw [simpleSched_succ_of_lt E t sr lead hrv b n r f pos cnt k hlt] at h ⊢
      simp only [List.length_cons] at h
      cases i with
      | zero =>
        simp only [List.map_cons, List.getD_cons_zero, List.getD_cons_succ]
        have hne : (simpleSched E t sr lead hrv b n r f
            (pos + simpleAdvance t hrv b (r k)) (cnt + 1)
            (simpleEffBeat E t sr lead cnt r (k + 1)).2).1 ≠ [] := by
          intro hnil
          rw [hnil] at h
          simp at h
        rw [simpleSched_head E t sr lead hrv b n r f
          (pos + simpleAdvance t hrv b (r k)) (cnt + 1)
          (simpleEffBeat E t sr lead cnt r (k + 1)).2 hne]
        have := simpleAdvance_ge t hrv b (r k)
        omega
      | succ j =>
        simp only [List.map_cons, List.getD_cons_succ]
        exact ih _ _ _ j (by omega)
    · rw [simpleSched_succ_of_ge E t sr lead hrv b n r f pos cnt k hlt] at h
      simp at h

theorem simpleSched_diff_const (E : NumEnv) (t : ECGTemplate) (sr : ℚ)
    (lead : String) (hrv : ℚ) (b : ℤ) (n : ℕ) (r : Rng) (d : ℤ)
    (hadv : ∀ u, simpleAdvance t hrv b u = d) :
    ∀ (fuel : ℕ) (pos : ℤ) (cnt k : ℕ) (i : ℕ),
      i + 1 < (simpleSched E t sr lead hrv b n r fuel pos cnt k).1.length →
      ((simpleSched E t sr lead hrv b n r fuel pos cnt k).1.map
          (fun e => e.1)).getD (i + 1) 0 =
        ((simpleSched E t sr lead hrv b n r fuel pos cnt k).1.map
          (fun e => e.1)).getD i 0 + d := by
  intro fuel
  induction fuel with
  | zero =>
    intro pos cnt k i h
    rw [simpleSched_zero] at h
    simp at h
  | succ f ih =>
    intro pos cnt k i h
    by_cases hlt : pos < (n : ℤ)
    · rw [simpleSched_succ_of_lt E t sr lead hrv b n r f pos cnt k hlt] at h ⊢
      simp only [List.length_cons] at h
      cases i with
      | zero =>
        simp only [List.map_cons, List.getD_cons_zero, List.getD_cons_succ]
        have hne : (simpleSched E t sr lead hrv b n r f
            (pos + simpleAdvance t hrv b (r k)) (cnt + 1)
            (simpleEffBeat E t sr lead cnt r (k + 1)).2).1 ≠ [] := by
          intro hnil
          rw [hnil] at h
          simp at h
        rw [simpleSched_head E t sr lead hrv b n r f
          (pos + simpleAdvance t hrv b (r k)) (cnt + 1)
          (simpleEffBeat E t sr lead cnt r (k + 1)).2 hne]
        rw [hadv (r k)]
      | succ j =>
        simp only [List.map_cons, List.getD_cons_succ]
        exact ih _ _ _ j (by omega)
    · rw [simpleSched_succ_of_ge E t sr lead hrv b n r f pos cnt k hlt] at h
      simp at h

theorem advance_floor_aux (b : ℤ) (u v : ℚ) (hb : 1 ≤ b) (hu0 : 0 ≤ u)
    (hv0 : 0 ≤ v) (hv1 : v ≤ 0.3) :
    1 ≤ b + pyInt ((b : ℚ) * uniform (-v) v u) := by
  apply one_le_add_pyInt hb
  have hw : (-1 : ℚ) < uniform (-v) v u := by
    have := uniform_lb (show -v ≤ v by linarith) hu0
    linarith
  have hbq : (0 : ℚ) < (b : ℚ) := by exact_mod_cast hb
  have := mul_lt_mul_of_pos_left hw hbq
  linarith

theorem interAdvance_pos (c : ArrhythmiaConfig) (hrv : ℚ) (b : ℤ) (u : ℚ)
    (hb : 1 ≤ b) (hu0 : 0 ≤ u) (hh0 : 0 ≤ hrv) (hh1 : hrv ≤ 1) :
    1 ≤ interAdvance c hrv b u := by
  simp only [interAdvance]
  apply advance_floor_aux b u _ hb hu0
  · split_ifs
    · exact mul_nonneg hh0 (by norm_num)
    · norm_num
    · exact mul_nonneg hh0 (by norm_num)
  · split_ifs
    · nlinarith
    · norm_num
    · nlinarith

/-- Unfolding equation: exhausted fuel. -/
theorem interLoop_zero (c : ArrhythmiaConfig) (hrv : ℚ) (b : ℤ) (n : ℕ)
    (r : Rng) (pos : ℤ) (k : ℕ) :
    interLoop c hrv b n r 0 pos k = ([], pos, k) := rfl

/-- Unfolding equation: one emitted offset. -/
theorem interLoop_succ_of_lt (c : ArrhythmiaConfig) (hrv : ℚ) (b : ℤ)
    (n : ℕ) (r : Rng) (f : ℕ) (pos : ℤ) (k : ℕ) (hlt : pos < (n : ℤ)) :
    interLoop c hrv b n r (f + 1) pos k =
      (pos :: (interLoop c hrv b n r f
          (pos + interAdvance c hrv b (r k)) (k + 1)).1,
        (interLoop c hrv b n r f
          (pos + interAdvance c hrv b (r k)) (k + 1)).2) := by
  simp only [interLoop]
  rw [if_pos hlt]

/-- Unfolding equation: walk already past the buffer. -/
theorem interLoop_succ_of_ge (c : ArrhythmiaConfig) (hrv : ℚ) (b : ℤ)
    (n : ℕ) (r : Rng) (f : ℕ) (pos : ℤ) (k : ℕ) (hge : ¬ pos < (n : ℤ)) :
    interLoop c hrv b n r (f + 1) pos k = ([], pos, k) := by
  simp only [interLoop]
  rw [if_neg hge]

theorem interLoop_entries_lt (c : ArrhythmiaConfig) (hrv : ℚ) (b : ℤ)
    (n : ℕ) (r : Rng) :
    ∀ (fuel : ℕ) (pos : ℤ) (k : ℕ),
      ∀ p ∈ (interLoop c hrv b n r fuel pos k).1, p < (n : ℤ) := by
  intro fuel
  induction fuel with
  | zero =>
    intro pos k p hp
    rw [interLoop_zero] at hp
    simp at hp
  | succ f ih =>
    intro pos k p hp
    by_cases hlt : pos < (n : ℤ)
    · rw [interLoop_succ_of_lt c hrv b n r f pos k hlt] at hp
      rcases List.mem_cons.mp hp with h | h
      · rw [h]; exact hlt
      · exact ih _ _ p h
    · rw [interLoop_succ_of_ge c hrv b n r f pos k hlt] at hp
      simp at hp

theorem interLoop_final_ge (c : ArrhythmiaConfig) (hrv : ℚ) (b : ℤ) (n : ℕ)
    (r : Rng) (Hadv : ∀ j, 1 ≤ interAdvance c hrv b (r j)) :
    ∀ (fuel : ℕ) (pos : ℤ) (k : ℕ), (n : ℤ) ≤ pos + fuel →
      (n : ℤ) ≤ (interLoop c hrv b n r fuel pos k).2.1 := by
  intro fuel
  induction fuel with
  | zero =>
    intro pos k h
    rw [interLoop_zero]
    show (n : ℤ) ≤ pos
    push_cast at h
    omega
  | succ f ih =>
    intro pos k h
    by_cases hlt : pos < (n : ℤ)
    · rw [interLoop_succ_of_lt c hrv b n r f pos k hlt]
      show (n : ℤ) ≤ (interLoop c hrv b n r f
        (pos + interAdvance c hrv b (r k)) (k + 1)).2.1
      refine ih _ _ ?_
      have := Hadv k
      push_cast at h ⊢
      omega
    · rw [interLoop_succ_of_ge c hrv b n r f pos k hlt]
      show (n : ℤ) ≤ pos
      omega

theorem interLoop_head (c : ArrhythmiaConfig) (hrv : ℚ) (b : ℤ) (n : ℕ)
    (r : Rng) :
    ∀ (fuel : ℕ) (pos : ℤ) (k : ℕ),
      (interLoop c hrv b n r fuel pos k).1 ≠ [] →
      (interLoop c hrv b n r fuel pos k).1.getD 0 0 = pos := by
  intro fuel
  cases fuel with
  | zero =>
    intro pos k h
    rw [interLoop_zero] at h
    simp at h
  | succ f =>
    intro pos k h
    by_cases hlt : pos < (n : ℤ)
    · rw [interLoop_succ_of_lt c hrv b n r f pos k hlt]
      simp
    · rw [interLoop_succ_of_ge c hrv b n r f pos k hlt] at h
      simp at h

theorem interLoop_diff (c : ArrhythmiaConfig) (hrv : ℚ) (b : ℤ) (n : ℕ)
    (r : Rng) :
    ∀ (fuel : ℕ) (pos : ℤ) (k : ℕ) (i : ℕ),
      i + 1 < (interLoop c hrv b n r fuel pos k).1.length →
      (interLoop c hrv b n r fuel pos k).1.getD (i + 1) 0 -
        (interLoop c hrv b n r fuel pos k).1.getD i 0 =
        interAdvance c hrv b (r (k + i)) := by
  intro fuel
  induction fuel with
  | zero =>
    intro pos k i h
    rw [interLoop_zero] at h
    simp at h
  | succ f ih =>
    intro pos k i h
    by_cases hlt : pos < (n : ℤ)
    · rw [interLoop_succ_of_lt c hrv b n r f pos k hlt] at h ⊢
      simp only [List.length_cons] at h
      cases i with
      | zero =>
        simp only [List.getD_cons_zero, List.getD_cons_succ]
        have hne : (interLoop c hrv b n r f
            (pos + interAdvance c hrv b (r k)) (k + 1)).1 ≠ [] := by
          intro hnil
          rw [hnil] at h
          simp at h
        rw [interLoop_head c hrv b n r f
          (pos + interAdvance c hrv b (r k)) (k + 1) hne]
        simp
      | succ j =>
        simp only [List.getD_cons_succ]
        have := ih (pos + interAdvance c hrv b (r k)) (k + 1) j (by omega)
        rw [this]
        congr 2
        omega
    · rw [interLoop_succ_of_ge c hrv b n r f pos k hlt] at h
      simp at h

theorem SimpleLayer_generate_ok (E : NumEnv) (c : ArrhythmiaConfig) (sr : ℚ)
    (n : ℕ) (leads : List String) (noise hrv : ℚ) (r : Rng) (k : ℕ)
    (hr : unitOk r) (hn : 1 ≤ n) (t : ECGTemplate)
    (ht : get_template c.arrhythmia_type = some t)
    (hcase : t.arrhythmia_type = asystoleKey ∨
      t.arrhythmia_type = vfCoarseKey ∨
      (0 < t.rate_bpm.1 ∧ t.rate_bpm.1 ≤ t.rate_bpm.2)) :
    ∃ res k',
      SimpleLayer.generate E c sr n leads noise hrv r k = some (res, k') ∧
      ∀ lead ∈ leads, ∃ s, dictGet res lead = some s ∧ s.length = n := by
  unfold SimpleLayer.generate
  rw [ht]
  exact leadsFold_ok (fun lead j => by
    obtain ⟨out, j', hls, hlen⟩ :=
      simpleLeadSignal_ok E t sr n lead noise hrv r j hr hn hcase
    exact ⟨out.1, j', by simp only [hls], hlen⟩) leads [] k

theorem IntermediateLayer_generate_ok (E : NumEnv) (c : ArrhythmiaConfig)
    (sr : ℚ) (n : ℕ) (leads : List String) (noise hrv : ℚ) (r : Rng) (k : ℕ)
    (hr : unitOk r) (hmin : 0 < c.rate_range.1)
    (hle : c.rate_range.1 ≤ c.rate_range.2) :
    ∃ res k',
      IntermediateLayer.generate E c sr n leads noise hrv r k
        = some (res, k') ∧
      ∀ lead ∈ leads, ∃ s, dictGet res lead = some s ∧ s.length = n := by
  unfold IntermediateLayer.generate
  exact leadsFold_ok (fun lead j => by
    obtain ⟨sig, j', hls, hlen⟩ := interLeadSignal_ok E c sr
      (interUpdateParams c) n lead noise hrv r j hr hmin hle
    exact ⟨sig, j', hls, hlen⟩) leads [] k

theorem RealisticLayer_generate_ok (E : NumEnv) (c : ArrhythmiaConfig)
    (sr : ℚ) (n : ℕ) (leads : List String) (noise hrv : ℚ) (r : Rng) (k : ℕ)
    (hn : 1 ≤ n) (t : ECGTemplate)
    (ht : get_template c.arrhythmia_type = some t)
    (hsteps : (pyInt ((n : ℚ) / sr * 1000 / 0.1)).toNat ≠ 0) :
    ∃ res k',
      RealisticLayer.generate E c sr n leads noise hrv r k = some (res, k') ∧
      ∀ lead ∈ leads, ∃ s, dictGet res lead = some s ∧ s.length = n := by
  unfold RealisticLayer.generate
  simp only [ht]
  by_cases h1 : c.arrhythmia_type = asystoleKey
  · rw [if_pos h1]
    exact leadsFold_ok (fun lead j => ⟨_, _, rfl, by simp [addNoise]⟩)
      leads [] k
  · rw [if_neg h1]
    by_cases h2 : c.arrhythmia_type = vfCoarseKey ∨
        c.arrhythmia_type = vfFineKey
    · rw [if_pos h2]
      exact leadsFold_ok (fun lead j => by
        obtain ⟨sig, j', hvf, hlen⟩ := realisticVfLead_ok E sr n
          (c.arrhythmia_type = vfFineKey) noise r j hn
        exact ⟨sig, j', by simp only [hvf], hlen⟩) leads [] k
    · rw [if_neg h2]
      by_cases h3 : c.arrhythmia_type = torsadesKey
      · rw [if_pos h3]
        exact leadsFold_ok (fun lead j =>
          ⟨_, _, rfl, realisticTorsadesLead_length E sr n noise r j⟩)
          leads [] k
      · rw [if_neg h3]
        have hap : (apTrain E t 0.1 ((n : ℚ) / sr * 1000) r k).1 ≠ [] := by
          intro h
          have hl := congrArg List.length h
          rw [apTrain_length] at hl
          simp at hl
          exact hsteps (by omega)
        exact leadsFold_ok (fun lead j => by
          obtain ⟨sig, j', hs, hlen⟩ := realisticStdLead_ok E 0.1
            (apTrain E t 0.1 ((n : ℚ) / sr * 1000) r k).1 n lead noise r j
            hap (by rw [kernel_steps_dt]; norm_num)
          exact ⟨sig, j', by simp only [hs], hlen⟩) leads []
          (apTrain E t 0.1 ((n : ℚ) / sr * 1000) r k).2

/-! ## Concrete evaluation inputs

A degenerate numeric environment and draw stream used to evaluate the
development on concrete inputs: every transcendental returns `0` and every
unit draw is `0`. -/

/-- The all-zero numeric environment. -/
def zeroEnv : NumEnv := ⟨fun _ => 0, fun _ => 0, 0, fun _ _ _ => 0⟩

/-- The all-zero draw stream. -/
def zeroRng : Rng := fun _ => 0

/-- A draw stream whose first draw is `0.999` and all later draws are 0. -/
def cexStreamC5 : Rng := fun i => if i = 0 then 999/1000 else 0

/-- A draw stream whose first draw is 0 and all later draws are `1/2`. -/
def cexStreamC6 : Rng := fun i => if i = 0 then 0 else 1/2

/-- Evaluation of `pyInt` on a nonnegative value with known floor. -/
theorem pyInt_eq_of_floor {q : ℚ} {z : ℤ} (h0 : 0 ≤ q) (h1 : (z : ℚ) ≤ q)
    (h2 : q < z + 1) : pyInt q = z := by
  rw [pyInt_eq_floor h0, Int.floor_eq_iff]
  exact ⟨h1, h2⟩

/-- Evaluation of `pyInt` on a negative value with known ceiling. -/
theorem pyInt_eq_of_ceil {q : ℚ} {z : ℤ} (h0 : ¬ 0 ≤ q) (h1 : (z : ℚ) - 1 < q)
    (h2 : q ≤ z) : pyInt q = z := by
  simp only [pyInt, if_neg h0]
  rw [Int.ceil_eq_iff]
  exact ⟨h1, h2⟩

/-- One second at 500 Hz gives 500 samples. -/
theorem samples_duration_one : (pyInt ((1 : ℚ) * 500)).toNat = 500 := by
  have h : (1 : ℚ) * 500 = ((500 : ℕ) : ℚ) := by norm_num
  rw [h, pyInt_natCast, Int.toNat_natCast]

/-- A parametric-scheduler call with fuel left and the walk inside the
buffer emits at least one offset. -/
theorem interLoop_ne_nil (c : ArrhythmiaConfig) (hrv : ℚ) (b : ℤ) (n : ℕ)
    (r : Rng) (f : ℕ) (pos : ℤ) (k : ℕ) (hlt : pos < (n : ℤ)) (hf : f ≠ 0) :
    (interLoop c hrv b n r f pos k).1 ≠ [] := by
  cases f with
  | zero => exact absurd rfl hf
  | succ m =>
    rw [interLoop_succ_of_lt c hrv b n r m pos k hlt]
    simp

/-- A parametric-scheduler call whose walk is already past the buffer
emits nothing. -/
theorem interLoop_nil_of_ge (c : ArrhythmiaConfig) (hrv : ℚ) (b : ℤ) (n : ℕ)
    (r : Rng) (f : ℕ) (pos : ℤ) (k : ℕ) (hge : ¬ pos < (n : ℤ)) :
    (interLoop c hrv b n r f pos k).1 = [] := by
  cases f with
  | zero => rfl
  | succ m => simp only [interLoop_succ_of_ge c hrv b n r m pos k hge]

/-! ## Branch-characterisation helpers -/

/-- The asystole branch of `SimpleLayer._generate_lead_signal`
(`src/layers/simple_layer.py` lines 101-105) in closed form. -/
theorem simpleAsystoleLead_eq (E : NumEnv) (sr : ℚ) (n : ℕ) (lead : String)
    (noise hrv : ℚ) (r : Rng) (k : ℕ) :
    simpleLeadSignal E tmplAsystole sr n lead noise hrv r k =
      (some ((addNoise (List.replicate n 0) (noise * 0.1) r k).1, [], 0),
        (addNoise (List.replicate n 0) (noise * 0.1) r k).2) := by
  unfold simpleLeadSignal
  rw [if_pos (show tmplAsystole.arrhythmia_type = asystoleKey from rfl)]

/-- The lookup layer on the asystole configuration: every lead is the
noise-only flat signal, bounded by `noise / 100`. -/
theorem SimpleLayer_asystole_ok (E : NumEnv) (c : ArrhythmiaConfig) (sr : ℚ)
    (n : ℕ) (leads : List String) (noise hrv : ℚ) (r : Rng) (k : ℕ)
    (hc : c.arrhythmia_type = asystoleKey)
    (hb : ∀ i, |r i| ≤ 1) (hnoise : 0 ≤ noise) :
    ∃ res k',
      SimpleLayer.generate E c sr n leads noise hrv r k = some (res, k') ∧
      ∀ lead ∈ leads, ∃ s, dictGet res lead = some s ∧
        ∀ j, |s.getD j 0| ≤ noise / 100 := by
  unfold SimpleLayer.generate
  rw [hc]
  simp only [show get_template asystoleKey = some tmplAsystole from rfl]
  exact leadsFold_ok (fun lead j =>
    ⟨(addNoise (List.replicate n 0) (noise * 0.1) r j).1,
     (addNoise (List.replicate n 0) (noise * 0.1) r j).2,
     by simp only [simpleAsystoleLead_eq],
     fun i => by
       have h1 := addNoise_zeros_bound n (noise * 0.1) r j hb (by linarith) i
       have h2 : noise * 0.1 * 0.1 = noise / 100 := by ring
       rw [h2] at h1
       exact h1⟩) leads [] k

/-- The biophysical layer on the asystole configuration: every lead is the
noise-only flat signal, bounded by `noise / 100`. -/
theorem RealisticLayer_asystole_ok (E : NumEnv) (c : ArrhythmiaConfig)
    (sr : ℚ) (n : ℕ) (leads : List String) (noise hrv : ℚ) (r : Rng) (k : ℕ)
    (hc : c.arrhythmia_type = asystoleKey)
    (hb : ∀ i, |r i| ≤ 1) (hnoise : 0 ≤ noise) :
    ∃ res k',
      RealisticLayer.generate E c sr n leads noise hrv r k = some (res, k') ∧
      ∀ lead ∈ leads, ∃ s, dictGet res lead = some s ∧
        ∀ j, |s.getD j 0| ≤ noise / 100 := by
  unfold RealisticLayer.generate
  rw [hc]
  simp only [show get_template asystoleKey = some tmplAsystole from rfl]
  rw [if_pos trivial]
  exact leadsFold_ok (fun lead j =>
    ⟨(addNoise (List.replicate n 0) (noise * 0.1) r j).1,
     (addNoise (List.replicate n 0) (noise * 0.1) r j).2,
     rfl,
     fun i => by
       have h1 := addNoise_zeros_bound n (noise * 0.1) r j hb (by linarith) i
       have h2 : noise * 0.1 * 0.1 = noise / 100 := by ring
       rw [h2] at h1
       exact h1⟩) leads [] k

/-- For a `regular` configuration at `hrv = 0` the parametric advance is
exactly the base RR interval. -/
theorem interAdvance_regular_hrv0 (c : ArrhythmiaConfig) (b : ℤ) (u : ℚ)
    (h : c.rate_regularity = "regular") :
    interAdvance c 0 b u = b := by
  simp only [interAdvance]
  rw [if_pos h]
  norm_num [uniform, pyInt_zero]

/-- For a `regularly_irregular` configuration the parametric advance is the
base RR interval plus a truncated `hrv * 0.15` uniform jitter. -/
theorem interAdvance_patterned (c : ArrhythmiaConfig) (hrv : ℚ) (b : ℤ)
    (u : ℚ) (hpat : c.rate_regularity = "regularly_irregular") :
    interAdvance c hrv b u =
      b + pyInt ((b : ℚ) * uniform (-(hrv * 0.15)) (hrv * 0.15) u) := by
  have h1 : ¬ c.rate_regularity = "regular" := by rw [hpat]; decide
  have h2 : ¬ c.rate_regularity = "irregular" := by rw [hpat]; decide
  simp only [interAdvance, if_neg h1, if_neg h2]

/-- The facade on any layer: for a catalogued rhythm, a well-formed draw
stream and at least one sample (and, for the parametric layer, a rhythm
other than asystole), `CardiacSimulator.generate` succeeds and yields one
signal of exactly `int(duration * 500)` samples per requested lead. -/
theorem generate_facade_ok (E : NumEnv) (layer : LayerType) (arr : String)
    (duration : ℚ) (leads : List String) (noise hrv : ℚ) (r : Rng) (k : ℕ)
    (hr : unitOk r) (t : ECGTemplate) (ht : get_template arr = some t)
    (hn : 1 ≤ (pyInt (duration * 500)).toNat)
    (harr : layer = LayerType.intermediate → arr ≠ asystoleKey) :
    ∃ sig, CardiacSimulator.generate E layer 500 arr duration leads noise hrv
        r k = some sig ∧
      ∀ lead ∈ leads, ∃ s, sig.get_lead lead = some s ∧
        s.length = (pyInt (duration * 500)).toNat := by
  have hct := get_arrhythmia_config_type arr
  cases layer with
  | simple =>
    have hmem : (arr, t) ∈ TEMPLATES := dictGet_mem ht
    have hcase := templates_rate_cases (arr, t) hmem
    obtain ⟨res, k', hrun, hall⟩ := SimpleLayer_generate_ok E
      (get_arrhythmia_config arr) 500 ((pyInt (duration * 500)).toNat) leads
      noise hrv r k hr hn t (by rw [hct]; exact ht) hcase
    refine ⟨⟨res, leads, 500, arr, duration⟩, ?_, fun lead hl => hall lead hl⟩
    simp only [CardiacSimulator.generate, hrun]
  | intermediate =>
    obtain ⟨hmin, hle, _⟩ := get_arrhythmia_config_rate arr (harr rfl)
    obtain ⟨res, k', hrun, hall⟩ := IntermediateLayer_generate_ok E
      (get_arrhythmia_config arr) 500 ((pyInt (duration * 500)).toNat) leads
      noise hrv r k hr hmin hle
    refine ⟨⟨res, leads, 500, arr, duration⟩, ?_, fun lead hl => hall lead hl⟩
    simp only [CardiacSimulator.generate, hrun]
  | realistic =>
    have hsteps :
        (pyInt ((((pyInt (duration * 500)).toNat : ℚ) / 500) * 1000 / 0.1)).toNat
          ≠ 0 := by
      rw [realistic_fine_steps]
      omega
    obtain ⟨res, k', hrun, hall⟩ := RealisticLayer_generate_ok E
      (get_arrhythmia_config arr) 500 ((pyInt (duration * 500)).toNat) leads
      noise hrv r k hn t (by rw [hct]; exact ht) hsteps
    refine ⟨⟨res, leads, 500, arr, duration⟩, ?_, fun lead hl => hall lead hl⟩
    simp only [CardiacSimulator.generate, hrun]

/-! ## The claims -/

/-- C1 (counterexample): at a duration giving zero samples the lookup
layer on coarse ventricular fibrillation does not return an (empty)
per-lead sequence of length `floor(duration * sampling_rate) = 0`; it
aborts, because `np.max` of the empty rectified signal raises during peak
normalisation.  So the sentence is false as quantified over every
duration. -/
theorem c1_zero_samples_raises :
    CardiacSimulator.generate zeroEnv LayerType.simple 500 vfCoarseKey
      (1/1000) ["II"] (1/100) (1/20) zeroRng 0 = none := by
  have hhalf : (1/1000 : ℚ) * 500 = 1/2 := by norm_num
  have hfloor : pyInt (1/2 : ℚ) = 0 :=
    pyInt_eq_of_floor (by norm_num) (by norm_num) (by norm_num)
  have hn : (pyInt ((1/1000 : ℚ) * 500)).toNat = 0 := by
    rw [hhalf, hfloor]
    rfl
  have hct : (get_arrhythmia_config vfCoarseKey).arrhythmia_type
      = vfCoarseKey := get_arrhythmia_config_type _
  have hvf : (simpleVfSignal zeroEnv 500 0 zeroRng 0).1 = none := by
    simp [simpleVfSignal, npMax]
  have hlead : simpleLeadSignal zeroEnv tmplVfCoarse 500 0 "II" (1/100)
      (1/20) zeroRng 0
      = (none, (simpleVfSignal zeroEnv 500 0 zeroRng 0).2) := by
    unfold simpleLeadSignal
    rw [if_neg (show ¬ tmplVfCoarse.arrhythmia_type = asystoleKey by decide)]
    rw [if_pos (show tmplVfCoarse.arrhythmia_type = vfCoarseKey from rfl)]
    simp only [hvf]
  have hgen : SimpleLayer.generate zeroEnv
      (get_arrhythmia_config vfCoarseKey) 500 0 ["II"] (1/100) (1/20)
      zeroRng 0 = none := by
    simp only [SimpleLayer.generate, hct,
      show get_template vfCoarseKey = some tmplVfCoarse from rfl,
      leadsFold, hlead]
  simp only [CardiacSimulator.generate, hn, hgen]

/-- C1 (amended): for catalogued rhythms, a well-formed draw stream and a
duration giving at least one sample, every layer's `generate` returns one
sample sequence per requested lead, each of length exactly
`int(duration * sampling_rate)` (so all leads of one result have identical
sample count); the parametric layer additionally requires the rhythm not to
be asystole (claim C2's counterexample). -/
theorem c1_generate_lengths (E : NumEnv) (arr : String) (duration : ℚ)
    (leads : List String) (noise hrv : ℚ) (r : Rng) (k : ℕ)
    (hr : unitOk r) (t : ECGTemplate) (ht : get_template arr = some t)
    (hn : 1 ≤ (pyInt (duration * 500)).toNat) :
    (∃ sig, CardiacSimulator.generate E LayerType.simple 500 arr duration
        leads noise hrv r k = some sig ∧
      ∀ lead ∈ leads, ∃ s, sig.get_lead lead = some s ∧
        s.length = (pyInt (duration * 500)).toNat) ∧
    (arr ≠ asystoleKey →
      ∃ sig, CardiacSimulator.generate E LayerType.intermediate 500 arr
          duration leads noise hrv r k = some sig ∧
        ∀ lead ∈ leads, ∃ s, sig.get_lead lead = some s ∧
          s.length = (pyInt (duration * 500)).toNat) ∧
    (∃ sig, CardiacSimulator.generate E LayerType.realistic 500 arr duration
        leads noise hrv r k = some sig ∧
      ∀ lead ∈ leads, ∃ s, sig.get_lead lead = some s ∧
        s.length = (pyInt (duration * 500)).toNat) :=
  ⟨generate_facade_ok E LayerType.simple arr duration leads noise hrv r k
      hr t ht hn (fun h => nomatch h),
   fun harr => generate_facade_ok E LayerType.intermediate arr duration leads
      noise hrv r k hr t ht hn (fun _ => harr),
   generate_facade_ok E LayerType.realistic arr duration leads noise hrv r k
      hr t ht hn (fun h => nomatch h)⟩

/-- C1 witness: the amended theorem evaluated at normal sinus rhythm, one
second, lead II and the all-zero stream. -/
theorem c1_generate_lengths_witness :
    (∃ sig, CardiacSimulator.generate zeroEnv LayerType.simple 500
        normalSinusKey 1 ["II"] 0 0 zeroRng 0 = some sig ∧
      ∀ lead ∈ ["II"], ∃ s, sig.get_lead lead = some s ∧
        s.length = (pyInt ((1 : ℚ) * 500)).toNat) ∧
    (normalSinusKey ≠ asystoleKey →
      ∃ sig, CardiacSimulator.generate zeroEnv LayerType.intermediate 500
          normalSinusKey 1 ["II"] 0 0 zeroRng 0 = some sig ∧
        ∀ lead ∈ ["II"], ∃ s, sig.get_lead lead = some s ∧
          s.length = (pyInt ((1 : ℚ) * 500)).toNat) ∧
    (∃ sig, CardiacSimulator.generate zeroEnv LayerType.realistic 500
        normalSinusKey 1 ["II"] 0 0 zeroRng 0 = some sig ∧
      ∀ lead ∈ ["II"], ∃ s, sig.get_lead lead = some s ∧
        s.length = (pyInt ((1 : ℚ) * 500)).toNat) :=
  c1_generate_lengths zeroEnv normalSinusKey 1 ["II"] 0 0 zeroRng 0
    (fun i => ⟨le_rfl, by norm_num [zeroRng]⟩) tmplNormalSinus rfl
    (by rw [samples_duration_one]; norm_num)

/-- C2 (counterexample): the parametric layer has no asystole branch; the
drawn rate over the range `(0, 0)` is `0` and `base_rr = int((60.0 / rate)
* sampling_rate)` raises `ZeroDivisionError` (modelled `none`), so the
claim's "every layer" is false. -/
theorem c2_parametric_asystole_divzero :
    CardiacSimulator.generate zeroEnv LayerType.intermediate 500 asystoleKey
      1 ["II"] (1/100) (1/20) zeroRng 0 = none := by
  have hrr : (get_arrhythmia_config asystoleKey).rate_range
      = ((0 : ℚ), (0 : ℚ)) := rfl
  have hrate : uniform (get_arrhythmia_config asystoleKey).rate_range.1
      (get_arrhythmia_config asystoleKey).rate_range.2 (zeroRng 0) = 0 := by
    rw [hrr]
    norm_num [uniform, zeroRng]
  have hpos : interPositions (get_arrhythmia_config asystoleKey) 500 (1/20)
      ((pyInt ((1 : ℚ) * 500)).toNat) zeroRng 0 = none := by
    simp only [interPositions]
    rw [if_pos hrate]
  have hlead : interLeadSignal zeroEnv (get_arrhythmia_config asystoleKey)
      500 (interUpdateParams (get_arrhythmia_config asystoleKey))
      ((pyInt ((1 : ℚ) * 500)).toNat) "II" (1/100) (1/20) zeroRng 0
      = none := by
    simp only [interLeadSignal, hpos]
  simp only [CardiacSimulator.generate, IntermediateLayer.generate,
    leadsFold, hlead]

/-- C2 (amended): the lookup and biophysical layers each take an explicit
asystole branch producing a flat noise-only signal — every sample is
bounded by `noise_level / 100` when the normal variates are bounded by one
— and never divide by zero; the parametric layer does (see the
counterexample). -/
theorem c2_asystole_flat_branches (E : NumEnv) (duration : ℚ)
    (leads : List String) (noise hrv : ℚ) (r : Rng) (k : ℕ)
    (hb : ∀ i, |r i| ≤ 1) (hnoise : 0 ≤ noise) :
    (∃ sig, CardiacSimulator.generate E LayerType.simple 500 asystoleKey
        duration leads noise hrv r k = some sig ∧
      ∀ lead ∈ leads, ∃ s, sig.get_lead lead = some s ∧
        ∀ j, |s.getD j 0| ≤ noise / 100) ∧
    (∃ sig, CardiacSimulator.generate E LayerType.realistic 500 asystoleKey
        duration leads noise hrv r k = some sig ∧
      ∀ lead ∈ leads, ∃ s, sig.get_lead lead = some s ∧
        ∀ j, |s.getD j 0| ≤ noise / 100) := by
  have hct := get_arrhythmia_config_type asystoleKey
  constructor
  · obtain ⟨res, k', hrun, hall⟩ := SimpleLayer_asystole_ok E
      (get_arrhythmia_config asystoleKey) 500
      ((pyInt (duration * 500)).toNat) leads noise hrv r k hct hb hnoise
    refine ⟨⟨res, leads, 500, asystoleKey, duration⟩, ?_,
      fun lead hl => hall lead hl⟩
    simp only [CardiacSimulator.generate, hrun]
  · obtain ⟨res, k', hrun, hall⟩ := RealisticLayer_asystole_ok E
      (get_arrhythmia_config asystoleKey) 500
      ((pyInt (duration * 500)).toNat) leads noise hrv r k hct hb hnoise
    refine ⟨⟨res, leads, 500, asystoleKey, duration⟩, ?_,
      fun lead hl => hall lead hl⟩
    simp only [CardiacSimulator.generate, hrun]

/-- C2 witness: the amended theorem evaluated at one second of asystole on
lead II with zero noise and the all-zero stream. -/
theorem c2_asystole_flat_branches_witness :
    (∃ sig, CardiacSimulator.generate zeroEnv LayerType.simple 500
        asystoleKey 1 ["II"] 0 0 zeroRng 0 = some sig ∧
      ∀ lead ∈ ["II"], ∃ s, sig.get_lead lead = some s ∧
        ∀ j, |s.getD j 0| ≤ (0 : ℚ) / 100) ∧
    (∃ sig, CardiacSimulator.generate zeroEnv LayerType.realistic 500
        asystoleKey 1 ["II"] 0 0 zeroRng 0 = some sig ∧
      ∀ lead ∈ ["II"], ∃ s, sig.get_lead lead = some s ∧
        ∀ j, |s.getD j 0| ≤ (0 : ℚ) / 100) :=
  c2_asystole_flat_branches zeroEnv 1 ["II"] 0 0 zeroRng 0
    (fun i => by norm_num [zeroRng]) le_rfl

/-- C3 (counterexample): `sick_sinus_syndrome` is a supported arrhythmia
identifier (it has a waveform template) with no catalog entry; the lookup
substitutes the default record and the body emits no warning, log or flag
(`get_arrhythmia_config_emits` is empty), so the fallback is silent, not
loud. -/
theorem c3_silent_fallback_cex :
    dictGet ARRHYTHMIA_CONFIGS "sick_sinus_syndrome" = none ∧
    dictGet TEMPLATES "sick_sinus_syndrome" = some tmplSickSinus ∧
    (get_arrhythmia_config "sick_sinus_syndrome").category = "unknown" ∧
    get_arrhythmia_config_emits "sick_sinus_syndrome" = [] :=
  ⟨rfl, rfl, rfl, rfl⟩

/-- C3 (amended): for every arrhythmia identifier not present in
`ARRHYTHMIA_CONFIGS`, `get_arrhythmia_config` substitutes the default
record (category `unknown`, rate range 60-100 bpm) instead of failing the
call, and the fallback is silent: no warning, log or flag is emitted. -/
theorem c3_fallback_default_silent (a : String)
    (h : dictGet ARRHYTHMIA_CONFIGS a = none) :
    get_arrhythmia_config a =
      { name := pyTitle (a.replace "_" " "), arrhythmia_type := a,
        category := "unknown", rate_range := (60, 100),
        rate_regularity := "regular", mechanism := "unknown",
        origin := "unknown" } ∧
    get_arrhythmia_config_emits a = [] := by
  constructor
  · unfold get_arrhythmia_config
    rw [h]
  · rfl

/-- C3 witness: the amended theorem evaluated at `sick_sinus_syndrome`. -/
theorem c3_fallback_default_silent_witness :
    get_arrhythmia_config "sick_sinus_syndrome" =
      { name := pyTitle (String.replace "sick_sinus_syndrome" "_" " "),
        arrhythmia_type := "sick_sinus_syndrome", category := "unknown",
        rate_range := (60, 100), rate_regularity := "regular",
        mechanism := "unknown", origin := "unknown" } ∧
    get_arrhythmia_config_emits "sick_sinus_syndrome" = [] :=
  c3_fallback_default_silent "sick_sinus_syndrome" rfl

/-- C4: for a rhythm whose regularity class is `regular` and `hrv = 0`,
the scheduled beat offsets form an arithmetic progression in both layers:
the lookup layer's while-loop trace has one constant consecutive
difference, and the parametric layer's beat positions differ by exactly
the (constant) truncated base RR interval. -/
theorem c4_regular_hrv0_arith_progression (E : NumEnv) (t : ECGTemplate)
    (c : ArrhythmiaConfig) (sr : ℚ) (lead : String) (b : ℤ) (n : ℕ)
    (r : Rng) (fuel : ℕ) (pos : ℤ) (cnt k kb : ℕ)
    (hts : t.regularity = "regular") (hcs : c.rate_regularity = "regular")
    (h4 : uniform c.rate_range.1 c.rate_range.2 (r kb) ≠ 0) :
    (∃ d : ℤ, ∀ i,
      i + 1 < (simpleSched E t sr lead 0 b n r fuel pos cnt k).1.length →
      ((simpleSched E t sr lead 0 b n r fuel pos cnt k).1.map
          (fun e => e.1)).getD (i + 1) 0 =
        ((simpleSched E t sr lead 0 b n r fuel pos cnt k).1.map
          (fun e => e.1)).getD i 0 + d) ∧
    (∃ ps rest, interPositions c sr 0 n r kb = some (ps, rest) ∧
      ∀ i, i + 1 < ps.length →
        ps.getD (i + 1) 0 - ps.getD i 0 =
          pyInt ((60 / uniform c.rate_range.1 c.rate_range.2 (r kb)) * sr)) := by
  constructor
  · have hch : ¬ t.regularity = "chaotic" := by rw [hts]; decide
    have hir : ¬ t.regularity = "irregular" := by rw [hts]; decide
    refine ⟨if b < 100 then 100 else b, ?_⟩
    intro i hi
    exact simpleSched_diff_const E t sr lead 0 b n r _
      (fun u => simpleAdvance_hrv0 t b u hch hir) fuel pos cnt k i hi
  · rw [interPositions_some c sr 0 n r kb h4]
    refine ⟨(interLoop c 0
        (pyInt ((60 / uniform c.rate_range.1 c.rate_range.2 (r kb)) * sr))
        n r (n + 1) 0 (kb + 1)).1,
      (interLoop c 0
        (pyInt ((60 / uniform c.rate_range.1 c.rate_range.2 (r kb)) * sr))
        n r (n + 1) 0 (kb + 1)).2, rfl, ?_⟩
    intro i hi
    rw [interLoop_diff c 0
      (pyInt ((60 / uniform c.rate_range.1 c.rate_range.2 (r kb)) * sr))
      n r (n + 1) 0 (kb + 1) i hi]
    exact interAdvance_regular_hrv0 c _ _ hcs

/-- C4 witness: the theorem evaluated on the normal-sinus template and
configuration with the all-zero stream. -/
theorem c4_regular_hrv0_witness :
    (∃ d : ℤ, ∀ i,
      i + 1 < (simpleSched zeroEnv tmplNormalSinus 500 "II" 0 400 3 zeroRng
        4 0 0 0).1.length →
      ((simpleSched zeroEnv tmplNormalSinus 500 "II" 0 400 3 zeroRng
          4 0 0 0).1.map (fun e => e.1)).getD (i + 1) 0 =
        ((simpleSched zeroEnv tmplNormalSinus 500 "II" 0 400 3 zeroRng
          4 0 0 0).1.map (fun e => e.1)).getD i 0 + d) ∧
    (∃ ps rest,
      interPositions (get_arrhythmia_config normalSinusKey) 500 0 3 zeroRng 0
        = some (ps, rest) ∧
      ∀ i, i + 1 < ps.length →
        ps.getD (i + 1) 0 - ps.getD i 0 =
          pyInt ((60 / uniform
            (get_arrhythmia_config normalSinusKey).rate_range.1
            (get_arrhythmia_config normalSinusKey).rate_range.2
            (zeroRng 0)) * 500)) :=
  c4_regular_hrv0_arith_progression zeroEnv tmplNormalSinus
    (get_arrhythmia_config normalSinusKey) 500 "II" 400 3 zeroRng 4 0 0 0 0
    rfl rfl
    (by norm_num [uniform, zeroRng,
      show (get_arrhythmia_config normalSinusKey).rate_range
        = ((60 : ℚ), (100 : ℚ)) from rfl])

/-- C5 (counterexample): the parametric layer's scheduler has no 100-sample
safety floor.  On the torsades configuration (rate range 200-300 bpm,
irregular) a drawn rate of 299.9 bpm gives `base_rr = 100`, and a maximal
negative jitter draw gives an inter-beat interval of 70 samples. -/
theorem c5_parametric_no_floor_cex :
    (get_arrhythmia_config torsadesKey).rate_regularity = "irregular" ∧
    ∃ ps rest,
      interPositions (get_arrhythmia_config torsadesKey) 500 (1/20) 200
        cexStreamC5 0 = some (ps, rest) ∧
      1 < ps.length ∧ ps.getD 1 0 - ps.getD 0 0 = 70 ∧
      ps.getD 1 0 - ps.getD 0 0 < 100 := by
  have hreg : (get_arrhythmia_config torsadesKey).rate_regularity
      = "irregular" := rfl
  have hrr : (get_arrhythmia_config torsadesKey).rate_range
      = ((200 : ℚ), (300 : ℚ)) := rfl
  have hs0 : cexStreamC5 0 = 999/1000 := rfl
  have hs1 : cexStreamC5 1 = 0 := rfl
  have hrate : uniform (get_arrhythmia_config torsadesKey).rate_range.1
      (get_arrhythmia_config torsadesKey).rate_range.2 (cexStreamC5 0)
      = 2999/10 := by
    rw [hrr, hs0]
    norm_num [uniform]
  have hbase : pyInt ((60 / (2999/10 : ℚ)) * 500) = 100 :=
    pyInt_eq_of_floor (by norm_num) (by norm_num) (by norm_num)
  have hadv : interAdvance (get_arrhythmia_config torsadesKey) (1/20) 100
      (cexStreamC5 1) = 70 := by
    have hnr : ¬ (get_arrhythmia_config torsadesKey).rate_regularity
        = "regular" := by rw [hreg]; decide
    simp only [interAdvance, if_neg hnr, if_pos hreg, hs1]
    have hu : uniform (-(0.3 : ℚ)) 0.3 0 = -(3/10) := by norm_num [uniform]
    rw [hu]
    have hm : ((100 : ℤ) : ℚ) * -(3/10) = -30 := by norm_num
    rw [hm]
    have hp : pyInt (-30 : ℚ) = -30 :=
      pyInt_eq_of_ceil (by norm_num) (by norm_num) (by norm_num)
    rw [hp]
    decide
  refine ⟨hreg, ?_⟩
  rw [interPositions_some (get_arrhythmia_config torsadesKey) 500 (1/20) 200
    cexStreamC5 0 (by rw [hrate]; norm_num)]
  rw [hrate, hbase]
  simp only [zero_add]
  rw [interLoop_succ_of_lt (get_arrhythmia_config torsadesKey) (1/20) 100
    200 cexStreamC5 200 0 1 (by norm_num)]
  rw [hadv]
  simp only [zero_add]
  have htail : (interLoop (get_arrhythmia_config torsadesKey) (1/20) 100 200
      cexStreamC5 200 70 (1 + 1)).1 ≠ [] :=
    interLoop_ne_nil _ _ _ _ _ 200 70 (1 + 1) (by norm_num) (by norm_num)
  have hhead := interLoop_head (get_arrhythmia_config torsadesKey) (1/20)
    100 200 cexStreamC5 200 70 (1 + 1) htail
  refine ⟨_, _, rfl, ?_, ?_, ?_⟩
  · simp only [List.length_cons]
    have := List.length_pos.mpr htail
    omega
  · simp only [List.getD_cons_succ, List.getD_cons_zero]
    rw [hhead]
    decide
  · simp only [List.getD_cons_succ, List.getD_cons_zero]
    rw [hhead]
    decide

/-- C5 (amended): the two layers do not share one scheduler.  The lookup
layer's loop clamps every inter-beat interval to at least 100 samples and
stops once the walk passes the requested sample count; the parametric
layer's loop has the same stop condition (under a well-formed stream,
`hrv` in `[0,1]` and a positive base RR its walk also terminates past the
buffer) but, per the counterexample, no 100-sample floor. -/
theorem c5_floor_and_stop (E : NumEnv) (t : ECGTemplate)
    (c : ArrhythmiaConfig) (sr : ℚ) (lead : String) (hrv : ℚ) (b bi : ℤ)
    (n : ℕ) (r : Rng) (k kb : ℕ)
    (hr : unitOk r) (hh0 : 0 ≤ hrv) (hh1 : hrv ≤ 1) (hbi : 1 ≤ bi) :
    (∀ i,
      i + 1 < (simpleSched E t sr lead hrv b n r (n + 1) 0 0 k).1.length →
      ((simpleSched E t sr lead hrv b n r (n + 1) 0 0 k).1.map
          (fun e => e.1)).getD i 0 + 100 ≤
        ((simpleSched E t sr lead hrv b n r (n + 1) 0 0 k).1.map
          (fun e => e.1)).getD (i + 1) 0) ∧
    (∀ e ∈ (simpleSched E t sr lead hrv b n r (n + 1) 0 0 k).1,
      e.1 < (n : ℤ)) ∧
    (n : ℤ) ≤ (simpleSched E t sr lead hrv b n r (n + 1) 0 0 k).2.1 ∧
    (∀ p ∈ (interLoop c hrv bi n r (n + 1) 0 kb).1, p < (n : ℤ)) ∧
    (n : ℤ) ≤ (interLoop c hrv bi n r (n + 1) 0 kb).2.1 := by
  refine ⟨?_, ?_, ?_, ?_, ?_⟩
  · intro i hi
    exact simpleSched_diff_ge100 E t sr lead hrv b n r (n + 1) 0 0 k i hi
  · exact simpleSched_entries_lt E t sr lead hrv b n r (n + 1) 0 0 k
  · exact simpleSched_final_ge E t sr lead hrv b n r (n + 1) 0 0 k
      (by push_cast; omega)
  · exact interLoop_entries_lt c hrv bi n r (n + 1) 0 kb
  · exact interLoop_final_ge c hrv bi n r
      (fun j => interAdvance_pos c hrv bi (r j) hbi (hr j).1 hh0 hh1)
      (n + 1) 0 kb (by push_cast; omega)

/-- C5 witness: the amended theorem evaluated on the normal-sinus template
and configuration with the all-zero stream. -/
theorem c5_floor_and_stop_witness :
    (∀ i,
      i + 1 < (simpleSched zeroEnv tmplNormalSinus 500 "II" 0 1 1 zeroRng
        2 0 0 0).1.length →
      ((simpleSched zeroEnv tmplNormalSinus 500 "II" 0 1 1 zeroRng
          2 0 0 0).1.map (fun e => e.1)).getD i 0 + 100 ≤
        ((simpleSched zeroEnv tmplNormalSinus 500 "II" 0 1 1 zeroRng
          2 0 0 0).1.map (fun e => e.1)).getD (i + 1) 0) ∧
    (∀ e ∈ (simpleSched zeroEnv tmplNormalSinus 500 "II" 0 1 1 zeroRng
        2 0 0 0).1, e.1 < ((1 : ℕ) : ℤ)) ∧
    ((1 : ℕ) : ℤ) ≤ (simpleSched zeroEnv tmplNormalSinus 500 "II" 0 1 1
      zeroRng 2 0 0 0).2.1 ∧
    (∀ p ∈ (interLoop (get_arrhythmia_config normalSinusKey) 0 1 1 zeroRng
        2 0 0).1, p < ((1 : ℕ) : ℤ)) ∧
    ((1 : ℕ) : ℤ) ≤ (interLoop (get_arrhythmia_config normalSinusKey) 0 1 1
      zeroRng 2 0 0).2.1 :=
  c5_floor_and_stop zeroEnv tmplNormalSinus
    (get_arrhythmia_config normalSinusKey) 500 "II" 0 1 1 1 zeroRng 0 0
    (fun i => ⟨le_rfl, by norm_num [zeroRng]⟩) le_rfl (by norm_num) le_rfl

/-- C6 (counterexample): for the patterned (regularly-irregular) Wenckebach
configuration the schedule is not a deterministic function of a beat-index
template: two draw streams that agree on the rate draw but differ in the
per-beat jitter draws give different beat-position lists. -/
theorem c6_patterned_jitter_cex :
    (get_arrhythmia_config "av_block_2_wenckebach").rate_regularity
      = "regularly_irregular" ∧
    zeroRng 0 = cexStreamC6 0 ∧
    ∃ ps1 rest1 ps2 rest2,
      interPositions (get_arrhythmia_config "av_block_2_wenckebach") 500 1
        700 zeroRng 0 = some (ps1, rest1) ∧
      interPositions (get_arrhythmia_config "av_block_2_wenckebach") 500 1
        700 cexStreamC6 0 = some (ps2, rest2) ∧
      ps1 ≠ ps2 := by
  have hpat : (get_arrhythmia_config "av_block_2_wenckebach").rate_regularity
      = "regularly_irregular" := rfl
  have hrr : (get_arrhythmia_config "av_block_2_wenckebach").rate_range
      = ((40 : ℚ), (80 : ℚ)) := rfl
  have hz1 : zeroRng 1 = 0 := rfl
  have hc0 : cexStreamC6 0 = 0 := rfl
  have hc1 : cexStreamC6 1 = 1/2 := rfl
  have hnr : ¬ (get_arrhythmia_config
      "av_block_2_wenckebach").rate_regularity = "regular" := by
    rw [hpat]; decide
  have hni : ¬ (get_arrhythmia_config
      "av_block_2_wenckebach").rate_regularity = "irregular" := by
    rw [hpat]; decide
  have hrate0 : uniform
      (get_arrhythmia_config "av_block_2_wenckebach").rate_range.1
      (get_arrhythmia_config "av_block_2_wenckebach").rate_range.2
      (zeroRng 0) = 40 := by
    rw [hrr]
    norm_num [uniform, zeroRng]
  have hrateC : uniform
      (get_arrhythmia_config "av_block_2_wenckebach").rate_range.1
      (get_arrhythmia_config "av_block_2_wenckebach").rate_range.2
      (cexStreamC6 0) = 40 := by
    rw [hrr, hc0]
    norm_num [uniform]
  have hbase : pyInt ((60 / (40 : ℚ)) * 500) = 750 :=
    pyInt_eq_of_floor (by norm_num) (by norm_num) (by norm_num)
  have hadv1 : interAdvance (get_arrhythmia_config "av_block_2_wenckebach")
      1 750 (zeroRng 1) = 638 := by
    simp only [interAdvance, if_neg hnr, if_neg hni, hz1]
    have hu : uniform (-((1 : ℚ) * 0.15)) ((1 : ℚ) * 0.15) 0 = -(3/20) := by
      norm_num [uniform]
    rw [hu]
    have hm : ((750 : ℤ) : ℚ) * -(3/20) = -(225/2) := by norm_num
    rw [hm]
    have hp : pyInt (-(225/2) : ℚ) = -112 :=
      pyInt_eq_of_ceil (by norm_num) (by norm_num) (by norm_num)
    rw [hp]
    decide
  have hadv2 : interAdvance (get_arrhythmia_config "av_block_2_wenckebach")
      1 750 (cexStreamC6 1) = 750 := by
    simp only [interAdvance, if_neg hnr, if_neg hni, hc1]
    have hu : uniform (-((1 : ℚ) * 0.15)) ((1 : ℚ) * 0.15) (1/2) = 0 := by
      norm_num [uniform]
    rw [hu]
    have hm : ((750 : ℤ) : ℚ) * 0 = 0 := by norm_num
    rw [hm, pyInt_zero]
    decide
  refine ⟨hpat, rfl, ?_⟩
  rw [interPositions_some (get_arrhythmia_config "av_block_2_wenckebach")
    500 1 700 zeroRng 0 (by rw [hrate0]; norm_num)]
  rw [interPositions_some (get_arrhythmia_config "av_block_2_wenckebach")
    500 1 700 cexStreamC6 0 (by rw [hrateC]; norm_num)]
  rw [hrate0, hrateC, hbase]
  simp only [zero_add]
  rw [interLoop_succ_of_lt (get_arrhythmia_config "av_block_2_wenckebach")
    1 750 700 zeroRng 700 0 1 (by norm_num)]
  rw [hadv1]
  rw [interLoop_succ_of_lt (get_arrhythmia_config "av_block_2_wenckebach")
    1 750 700 cexStreamC6 700 0 1 (by norm_num)]
  rw [hadv2]
  simp only [zero_add]
  rw [interLoop_nil_of_ge (get_arrhythmia_config "av_block_2_wenckebach")
    1 750 700 cexStreamC6 700 750 (1 + 1) (by norm_num)]
  have htail : (interLoop (get_arrhythmia_config "av_block_2_wenckebach")
      1 750 700 zeroRng 700 638 (1 + 1)).1 ≠ [] :=
    interLoop_ne_nil _ _ _ _ _ 700 638 (1 + 1) (by norm_num) (by norm_num)
  refine ⟨_, _, _, _, rfl, rfl, ?_⟩
  intro h
  have hlen := congrArg List.length h
  simp only [List.length_cons, List.length_nil] at hlen
  have := List.length_pos.mpr htail
  omega

/-- C6 (amended): for every regularly-irregular configuration the
scheduling jitter is an independent uniform random draw per beat, not a
deterministic repeating template: the i-th inter-beat interval is the base
RR interval plus the truncation of `base_rr` times a fresh
`uniform(-hrv*0.15, hrv*0.15)` variate taken from stream position
`k + 1 + i`. -/
theorem c6_patterned_jitter_per_beat (c : ArrhythmiaConfig) (sr hrv : ℚ)
    (n : ℕ) (r : Rng) (k : ℕ)
    (hpat : c.rate_regularity = "regularly_irregular")
    (h4 : uniform c.rate_range.1 c.rate_range.2 (r k) ≠ 0) :
    ∃ ps rest, interPositions c sr hrv n r k = some (ps, rest) ∧
      ∀ i, i + 1 < ps.length →
        ps.getD (i + 1) 0 - ps.getD i 0 =
          pyInt ((60 / uniform c.rate_range.1 c.rate_range.2 (r k)) * sr) +
            pyInt (((pyInt ((60 / uniform c.rate_range.1 c.rate_range.2
                (r k)) * sr) : ℤ) : ℚ)
              * uniform (-(hrv * 0.15)) (hrv * 0.15) (r (k + 1 + i))) := by
  rw [interPositions_some c sr hrv n r k h4]
  refine ⟨(interLoop c hrv
      (pyInt ((60 / uniform c.rate_range.1 c.rate_range.2 (r k)) * sr))
      n r (n + 1) 0 (k + 1)).1,
    (interLoop c hrv
      (pyInt ((60 / uniform c.rate_range.1 c.rate_range.2 (r k)) * sr))
      n r (n + 1) 0 (k + 1)).2, rfl, ?_⟩
  intro i hi
  rw [interLoop_diff c hrv
    (pyInt ((60 / uniform c.rate_range.1 c.rate_range.2 (r k)) * sr))
    n r (n + 1) 0 (k + 1) i hi]
  exact interAdvance_patterned c hrv _ _ hpat

/-- C6 witness: the amended theorem evaluated on the Wenckebach
configuration with the all-zero stream. -/
theorem c6_patterned_jitter_witness :
    ∃ ps rest,
      interPositions (get_arrhythmia_config "av_block_2_wenckebach") 500 1 1
        zeroRng 0 = some (ps, rest) ∧
      ∀ i, i + 1 < ps.length →
        ps.getD (i + 1) 0 - ps.getD i 0 =
          pyInt ((60 / uniform
            (get_arrhythmia_config "av_block_2_wenckebach").rate_range.1
            (get_arrhythmia_config "av_block_2_wenckebach").rate_range.2
            (zeroRng 0)) * 500) +
            pyInt (((pyInt ((60 / uniform
                (get_arrhythmia_config "av_block_2_wenckebach").rate_range.1
                (get_arrhythmia_config "av_block_2_wenckebach").rate_range.2
                (zeroRng 0)) * 500) : ℤ) : ℚ)
              * uniform (-((1 : ℚ) * 0.15)) ((1 : ℚ) * 0.15)
                (zeroRng (0 + 1 + i))) :=
  c6_patterned_jitter_per_beat (get_arrhythmia_config "av_block_2_wenckebach")
    500 1 1 zeroRng 0 rfl
    (by norm_num [uniform, zeroRng,
      show (get_arrhythmia_config "av_block_2_wenckebach").rate_range
        = ((40 : ℚ), (80 : ℚ)) from rfl])

/-- C7: determinism under seeding.  After `np.random.seed(seed)` the draw
stream is `npSeed gen seed`; two `generate` calls with the same rhythm,
duration, leads, noise level, hrv and whose streams both come from seeding
with the same seed produce bit-identical output. -/
theorem c7_determinism_under_seed (E : NumEnv) (gen : ℕ → Rng) (seed : ℕ)
    (r1 r2 : Rng) (h1 : ∀ i, r1 i = npSeed gen seed i)
    (h2 : ∀ i, r2 i = npSeed gen seed i) (layer : LayerType) (sr : ℚ)
    (arr : String) (duration : ℚ) (leads : List String) (noise hrv : ℚ)
    (k : ℕ) :
    CardiacSimulator.generate E layer sr arr duration leads noise hrv r1 k
      = CardiacSimulator.generate E layer sr arr duration leads noise hrv
        r2 k := by
  have h : r1 = r2 := funext (fun i => (h1 i).trans (h2 i).symm)
  rw [h]

/-- C7 witness: two seeded runs of the lookup layer coincide. -/
theorem c7_determinism_witness :
    CardiacSimulator.generate zeroEnv LayerType.simple 500 normalSinusKey 1
        ["II"] 0 0 (npSeed (fun _ => zeroRng) 42) 0
      = CardiacSimulator.generate zeroEnv LayerType.simple 500 normalSinusKey
        1 ["II"] 0 0 zeroRng 0 :=
  c7_determinism_under_seed zeroEnv (fun _ => zeroRng) 42
    (npSeed (fun _ => zeroRng) 42) zeroRng (fun i => rfl) (fun i => rfl)
    LayerType.simple 500 normalSinusKey 1 ["II"] 0 0 0

/-- C8: after every single `HodgkinHuxleyModel.step`, for every starting
state and every stimulus current, each gating variable m, h, n lies in
`[0, 1]`: the clamp is applied inside the step, so the bound is an
invariant of the step function. -/
theorem c8_gates_clamped_after_step (E : NumEnv) (dt : ℚ) (s : HHState)
    (Istim : ℚ) :
    0 ≤ (hhStep E dt s Istim).m ∧ (hhStep E dt s Istim).m ≤ 1 ∧
    0 ≤ (hhStep E dt s Istim).h ∧ (hhStep E dt s Istim).h ≤ 1 ∧
    0 ≤ (hhStep E dt s Istim).n ∧ (hhStep E dt s Istim).n ≤ 1 :=
  ⟨clip01_nonneg _, clip01_le_one _, clip01_nonneg _, clip01_le_one _,
   clip01_nonneg _, clip01_le_one _⟩

/-- C9: `switch_layer` preserves layer-local state, and the snapshot handed
over is a copy.  Reading the new layer's state dict after the switch gives
exactly the old layer's state (when its keys are distinct), and overwriting
the snapshot dict allocated by `get_state` leaves the donor layer's state
unchanged. -/
theorem c9_switch_preserves_state {α : Type} (st : Store α) (old : LayerObj)
    (hnd : ((st.read old.stateRef).map Prod.fst).Nodup)
    (href : old.stateRef < st.dicts.length) :
    (switchLayer st old).1.read ((switchLayer st old).2).stateRef
      = st.read old.stateRef ∧
    ∀ d' : StateDict α,
      ((getState st old).1.write (getState st old).2 d').read old.stateRef
        = st.read old.stateRef := by
  constructor
  · simp only [switchLayer, getState, createLayer, setState]
    have hw : ((st.alloc (st.read old.stateRef)).1.alloc []).2
        < ((st.alloc (st.read old.stateRef)).1.alloc []).1.dicts.length := by
      simp only [Store.alloc, List.length_append, List.length_cons,
        List.length_nil]
      omega
    rw [store_read_write_self _ _ _ hw]
    have hlen : (st.alloc (st.read old.stateRef)).2
        < (st.alloc (st.read old.stateRef)).1.dicts.length := by
      simp only [Store.alloc, List.length_append, List.length_cons,
        List.length_nil]
      omega
    rw [store_read_alloc_new (st.alloc (st.read old.stateRef)).1 []]
    rw [store_read_alloc_old (st.alloc (st.read old.stateRef)).1
      ([] : StateDict α) (st.alloc (st.read old.stateRef)).2 hlen]
    rw [store_read_alloc_new st (st.read old.stateRef)]
    exact dictUpdate_nil _ hnd
  · intro d'
    have hne : (getState st old).2 ≠ old.stateRef := by
      simp only [getState, Store.alloc]
      omega
    rw [store_read_write_ne _ _ _ _ hne]
    show ((st.alloc (st.read old.stateRef)).1).read old.stateRef
      = st.read old.stateRef
    exact store_read_alloc_old st (st.read old.stateRef) old.stateRef href

/-- C9 witness: the theorem evaluated on a one-dict store holding
`{"phase": 1}`. -/
theorem c9_switch_witness :
    (switchLayer (⟨[[("phase", (1 : ℚ))]]⟩ : Store ℚ) ⟨0⟩).1.read
        ((switchLayer (⟨[[("phase", (1 : ℚ))]]⟩ : Store ℚ) ⟨0⟩).2).stateRef
      = (⟨[[("phase", (1 : ℚ))]]⟩ : Store ℚ).read 0 ∧
    ∀ d' : StateDict ℚ,
      ((getState (⟨[[("phase", (1 : ℚ))]]⟩ : Store ℚ) ⟨0⟩).1.write
          (getState (⟨[[("phase", (1 : ℚ))]]⟩ : Store ℚ) ⟨0⟩).2 d').read 0
        = (⟨[[("phase", (1 : ℚ))]]⟩ : Store ℚ).read 0 :=
  c9_switch_preserves_state (⟨[[("phase", (1 : ℚ))]]⟩ : Store ℚ) ⟨0⟩
    (by decide) (by decide)

/-- C10: an unknown lead name does not fail generation.  Both coefficient
tables fall back to their identity defaults, all three layers succeed and
produce a signal for the unknown lead, and retrieval fails only at
`get_lead`, exactly when the record was generated without that lead. -/
theorem c10_unknown_lead_defaults (E : NumEnv) (lead arr : String)
    (duration : ℚ) (noise hrv : ℚ) (r : Rng) (k : ℕ)
    (hlt : dictGet leadTransformTable lead = none)
    (hxf : dictGet leadTransferTable lead = none)
    (hr : unitOk r) (t : ECGTemplate) (ht : get_template arr = some t)
    (hn : 1 ≤ (pyInt (duration * 500)).toNat) (harr : arr ≠ asystoleKey) :
    interLeadTransform lead = ⟨1.0, 1.0, 1.0⟩ ∧
    realLeadTransfer lead = ⟨0, 1.0, false⟩ ∧
    (∃ sig, CardiacSimulator.generate E LayerType.simple 500 arr duration
        [lead] noise hrv r k = some sig ∧ ∃ s, sig.get_lead lead = some s) ∧
    (∃ sig, CardiacSimulator.generate E LayerType.intermediate 500 arr
        duration [lead] noise hrv r k = some sig ∧
      ∃ s, sig.get_lead lead = some s) ∧
    (∃ sig, CardiacSimulator.generate E LayerType.realistic 500 arr duration
        [lead] noise hrv r k = some sig ∧ ∃ s, sig.get_lead lead = some s) ∧
    (∀ sig, CardiacSimulator.generate E LayerType.simple 500 arr duration
        ([] : List String) noise hrv r k = some sig →
      sig.get_lead lead = none) := by
  refine ⟨?_, ?_, ?_, ?_, ?_, ?_⟩
  · simp [interLeadTransform, dictGetD, hlt]
  · simp [realLeadTransfer, dictGetD, hxf]
  · obtain ⟨sig, hgen, hall⟩ := generate_facade_ok E LayerType.simple arr
      duration [lead] noise hrv r k hr t ht hn (fun h => nomatch h)
    obtain ⟨s, hs, _⟩ := hall lead (by simp)
    exact ⟨sig, hgen, s, hs⟩
  · obtain ⟨sig, hgen, hall⟩ := generate_facade_ok E LayerType.intermediate
      arr duration [lead] noise hrv r k hr t ht hn (fun _ => harr)
    obtain ⟨s, hs, _⟩ := hall lead (by simp)
    exact ⟨sig, hgen, s, hs⟩
  · obtain ⟨sig, hgen, hall⟩ := generate_facade_ok E LayerType.realistic arr
      duration [lead] noise hrv r k hr t ht hn (fun h => nomatch h)
    obtain ⟨s, hs, _⟩ := hall lead (by simp)
    exact ⟨sig, hgen, s, hs⟩
  · intro sig hgen
    have hgt : get_template (get_arrhythmia_config arr).arrhythmia_type
        = some t := by
      rw [get_arrhythmia_config_type]
      exact ht
    have hrun : SimpleLayer.generate E (get_arrhythmia_config arr) 500
        ((pyInt (duration * 500)).toNat) ([] : List String) noise hrv r k
        = some ([], k) := by
      simp only [SimpleLayer.generate, hgt, leadsFold]
    simp only [CardiacSimulator.generate, hrun] at hgen
    cases hgen
    rfl

/-- C10 witness: the theorem evaluated at the unknown lead `X1` on normal
sinus rhythm. -/
theorem c10_unknown_lead_witness :
    interLeadTransform "X1" = ⟨1.0, 1.0, 1.0⟩ ∧
    realLeadTransfer "X1" = ⟨0, 1.0, false⟩ ∧
    (∃ sig, CardiacSimulator.generate zeroEnv LayerType.simple 500
        normalSinusKey 1 ["X1"] 0 0 zeroRng 0 = some sig ∧
      ∃ s, sig.get_lead "X1" = some s) ∧
    (∃ sig, CardiacSimulator.generate zeroEnv LayerType.intermediate 500
        normalSinusKey 1 ["X1"] 0 0 zeroRng 0 = some sig ∧
      ∃ s, sig.get_lead "X1" = some s) ∧
    (∃ sig, CardiacSimulator.generate zeroEnv LayerType.realistic 500
        normalSinusKey 1 ["X1"] 0 0 zeroRng 0 = some sig ∧
      ∃ s, sig.get_lead "X1" = some s) ∧
    (∀ sig, CardiacSimulator.generate zeroEnv LayerType.simple 500
        normalSinusKey 1 ([] : List String) 0 0 zeroRng 0 = some sig →
      sig.get_lead "X1" = none) :=
  c10_unknown_lead_defaults zeroEnv "X1" normalSinusKey 1 0 0 zeroRng 0
    rfl rfl (fun i => ⟨le_rfl, by norm_num [zeroRng]⟩)
    tmplNormalSinus rfl (by rw [samples_duration_one]; norm_num) (by decide)

end ECGSim
